import Mathlib

/-!
Verification development for the `port-blue-ocean-framework` CARG connector
(`carg/port_ocean_carg`).  The Python source is shallowly embedded: JSON
values become the inductive `JVal`, dictionaries become association lists,
`for` loops become structural recursions, the `while True` pagination loop
becomes a well-founded recursion, and the fallible/recursive request path is
modelled with explicit fuel.  Collaborator pieces that are not part of the
repository's `src` tree (the remote HTTP endpoint, the jq evaluator, the
mapping-spec YAML, the blueprint registry JSON) are modelled from the spec
and marked as such in their doc comments.
-/

namespace Carg

/-! ## JSON values (Python objects flowing through the connector) -/

/-- A Python/JSON value as it flows through the connector: `None`, `bool`,
`int`, `float` (rationals stand in for floats; no claim performs float
arithmetic), `str`, `list`, and `dict` (association list, insertion
ordered). -/
inductive JVal where
  | jnull : JVal
  | jbool : Bool → JVal
  | jint : Int → JVal
  | jfloat : Rat → JVal
  | jstr : String → JVal
  | jarr : List JVal → JVal
  | jobj : List (String × JVal) → JVal
deriving Repr

open JVal

/-- Python truthiness (`bool(v)`): `None`, `False`, `0`, `0.0`, `""`, `[]`,
`{}` are falsy, everything else is truthy. -/
def pyTruthy : JVal → Bool
  | jnull => false
  | jbool b => b
  | jint n => decide (n ≠ 0)
  | jfloat q => decide (q ≠ 0)
  | jstr s => decide (s ≠ "")
  | jarr l => !l.isEmpty
  | jobj l => !l.isEmpty

/-- `isinstance(v, str)`. -/
def isStr : JVal → Bool
  | jstr _ => true
  | _ => false

/-- `isinstance(v, bool)`. -/
def isBoolPy : JVal → Bool
  | jbool _ => true
  | _ => false

/-- `isinstance(v, (int, float))`.  In Python `bool` is a subclass of `int`,
so boolean values also count as numbers. -/
def isNumberPy : JVal → Bool
  | jint _ => true
  | jfloat _ => true
  | jbool _ => true
  | _ => false

/-- `isinstance(v, list)`. -/
def isListPy : JVal → Bool
  | jarr _ => true
  | _ => false

/-- `isinstance(v, dict)`. -/
def isDictPy : JVal → Bool
  | jobj _ => true
  | _ => false

/-- `type(v).__name__`, used verbatim inside validation error messages. -/
def pyTypeName : JVal → String
  | jnull => "NoneType"
  | jbool _ => "bool"
  | jint _ => "int"
  | jfloat _ => "float"
  | jstr _ => "str"
  | jarr _ => "list"
  | jobj _ => "dict"

/-- Dictionary lookup (`d[k]` / `k in d`): first binding wins, as in a
Python `dict` whose keys are unique. -/
def dictGet : List (String × JVal) → String → Option JVal
  | [], _ => none
  | (k', v) :: rest, k => if k' = k then some v else dictGet rest k

/-- `d.get(k, default)`. -/
def dictGetD (d : List (String × JVal)) (k : String) (default : JVal) : JVal :=
  (dictGet d k).getD default

/-- Decimal digits of a natural number, least significant first; the second
argument is structural fuel (`n` itself always suffices). -/
def natDigitsRevAux : Nat → Nat → List Char
  | _, 0 => []
  | n, fuel + 1 =>
    if n = 0 then [] else Nat.digitChar (n % 10) :: natDigitsRevAux (n / 10) fuel

/-- Decimal rendering of a natural number (Python `str` on a non-negative
`int`). -/
def natRepr (n : Nat) : String :=
  if n = 0 then "0" else ⟨(natDigitsRevAux n n).reverse⟩

/-- Decimal rendering of an integer (Python `str(int)`). -/
def intRepr (n : Int) : String :=
  if n < 0 then "-" ++ natRepr n.natAbs else natRepr n.natAbs

/-- Python `str(v)`.  Only the `None`/`bool`/`int`/`str` cases are exercised
by the connector (identifiers and relation values); the remaining cases
abstract Python's rendering without affecting any claim. -/
def pyStr : JVal → String
  | jnull => "None"
  | jbool true => "True"
  | jbool false => "False"
  | jint n => intRepr n
  | jfloat q => toString q
  | jstr s => s
  | jarr _ => "<list>"
  | jobj _ => "<dict>"

/-! ## Resource Fetcher: pagination loop (`client.py`, `get_paginated_resources`) -/

/-- `PAGE_SIZE = 100` (`client.py`). -/
def PAGE_SIZE : Nat := 100

/-- `RETRY_DELAY = 60` seconds for rate limiting (`client.py`). -/
def RETRY_DELAY : Nat := 60

/-- A parsed remote response, mirroring lines 181–188 of `client.py`: either
a mapping carrying `data`, `total` and `hasMore`, or a bare list (treated as
the complete item set). -/
inductive ApiResponse (α : Type) where
  | rdict : List α → Nat → Bool → ApiResponse α
  | rlist : List α → ApiResponse α

/-- The item list / total / hasMore extraction of `get_paginated_resources`
(lines 181–188): a mapping yields its `data`, `total`, `hasMore` fields and
a bare list is the complete set (`total = len(items)`, `hasMore = False`). -/
def parseResponse : ApiResponse α → List α × Nat × Bool
  | .rdict items total hasMore => (items, total, hasMore)
  | .rlist items => (items, items.length, false)

/-- Modelled from the spec: the remote resource endpoint (§6, §8), which is
an external collaborator not present in `src`.  It serves a finite data set
page-wise, honouring the requested `skip`/`take` window, reporting the total
count and whether further items remain. -/
def syntheticServer (data : List α) (skip take : Nat) : ApiResponse α :=
  .rdict ((data.drop skip).take take) data.length (decide (skip + take < data.length))

/-- The `while True` pagination loop of `get_paginated_resources`
(`client.py` lines 175–205), run against the synthetic server and
generalised over the requested page size (the source fixes it to
`PAGE_SIZE`).  Mirrors the source: stop without yielding when the item list
is empty; otherwise yield the page, then if `hasMore` is false and
`total > 0` stop once `skip + len(items) ≥ total` (else continue), else stop
when the batch is smaller than the page size, else advance `skip` by the
page size and repeat. -/
def paginateLoop (pageSize : Nat) (data : List α) (skip : Nat) : List (List α) :=
  let parsed := parseResponse (syntheticServer data skip pageSize)
  let items := parsed.1
  let total := parsed.2.1
  let hasMore := parsed.2.2
  if h : items.isEmpty then
    []
  else if !hasMore && decide (0 < total) then
    if skip + items.length ≥ total then
      [items]
    else
      items :: paginateLoop pageSize data (skip + pageSize)
  else if items.length < pageSize then
    [items]
  else
    items :: paginateLoop pageSize data (skip + pageSize)
termination_by data.length - skip
decreasing_by
  all_goals
    have h' : (data.drop skip).take pageSize ≠ [] := by
      unfold items parsed at h
      simpa [parseResponse, syntheticServer] using h
    have h1 : data.drop skip ≠ [] := fun hd => h' (by simp [hd])
    have h2 : skip < data.length := by
      by_contra hle
      exact h1 (List.drop_eq_nil_of_le (by omega))
    have h3 : pageSize ≠ 0 := fun h0 => h' (by simp [h0])
    omega

/-- `get_paginated_resources(resource_kind)`: the full fetch starting at
`skip = 0`.  The source fixes the page size to `PAGE_SIZE`; it is kept as a
parameter so the pagination property can be stated for any page size. -/
def getPaginatedResources (pageSize : Nat) (data : List α) : List (List α) :=
  paginateLoop pageSize data 0

theorem paginateLoop_spec (P : Nat) (hP : 0 < P) (data : List α) (skip : Nat) :
    (paginateLoop P data skip).flatten = data.drop skip ∧
    (paginateLoop P data skip).length = (data.length - skip + P - 1) / P ∧
    ∀ p ∈ paginateLoop P data skip, p ≠ [] := by
  rw [paginateLoop]
  simp only [parseResponse, syntheticServer]
  by_cases hempty : ((data.drop skip).take P).isEmpty
  · rw [dif_pos hempty]
    rw [List.isEmpty_iff, List.take_eq_nil_iff] at hempty
    have hdrop : data.drop skip = [] := by
      rcases hempty with h0 | h
      · omega
      · exact h
    have hskip : data.length ≤ skip := List.drop_eq_nil_iff.mp hdrop
    refine ⟨by simp [hdrop], ?_, by simp⟩
    have h0 : data.length - skip = 0 := by omega
    simp only [h0, List.length_nil, Nat.zero_add]
    exact (Nat.div_eq_of_lt (by omega)).symm
  · rw [dif_neg hempty]
    have hne : (data.drop skip).take P ≠ [] := by
      intro h; exact hempty (List.isEmpty_iff.mpr h)
    have hskip : skip < data.length := by
      by_contra hle
      exact hne (by rw [List.drop_eq_nil_iff.mpr (by omega)]; simp)
    have hL : 0 < data.length := by omega
    have hlen : ((data.drop skip).take P).length = min P (data.length - skip) := by
      simp [List.length_take, List.length_drop]
    by_cases hm : skip + P < data.length
    · -- `hasMore` is true: the loop must continue with a full page
      have hcond : (!decide (skip + P < data.length) && decide (0 < data.length)) = false := by
        simp [hm]
      rw [if_neg (by simp [hcond, hm])]
      have hfull : ((data.drop skip).take P).length = P := by omega
      rw [if_neg (by omega)]
      have IH := paginateLoop_spec P hP data (skip + P)
      refine ⟨?_, ?_, ?_⟩
      · simp only [List.flatten_cons, IH.1]
        rw [← List.drop_drop]
        exact List.take_append_drop P (data.drop skip)
      · simp only [List.length_cons, IH.2.1]
        have harith : data.length - (skip + P) + P - 1 = data.length - skip - 1 := by omega
        rw [harith]
        have h2 : data.length - skip + P - 1 = (data.length - skip - 1) + P := by omega
        rw [h2, Nat.add_div_right _ hP]
      · intro p hp
        rcases List.mem_cons.mp hp with h | h
        · rw [h]; exact hne
        · exact IH.2.2 p h
    · -- `hasMore` is false: the remaining items fit in this page, stop
      have hcond : (!decide (skip + P < data.length) && decide (0 < data.length)) = true := by
        simp [hm, hL]
      rw [if_pos (by simp [hm, hL])]
      have hrest : ((data.drop skip).take P).length = data.length - skip := by omega
      rw [if_pos (by omega)]
      refine ⟨?_, ?_, ?_⟩
      · simp only [List.flatten_cons, List.flatten_nil, List.append_nil]
        exact List.take_of_length_le (by rw [List.length_drop]; omega)
      · simp only [List.length_singleton]
        have h1 : data.length - skip + P - 1 < (1 + 1) * P := by omega
        exact (Nat.div_eq_of_lt_le (by omega) h1).symm
      · intro p hp
        rcases List.mem_singleton.mp hp with h
        rw [h]; exact hne
termination_by data.length - skip
decreasing_by omega

/-- C1: for every finite remote data set of size `M` served page-wise with
page size `P > 0`, `get_paginated_resources` yields exactly `⌈M / P⌉` pages,
the concatenation of the yielded pages is the full data set (hence no item
is duplicated or dropped), and no yielded page is empty. -/
theorem c1_pagination_yields_ceil_pages_full_set (P : Nat) (hP : 0 < P)
    (data : List α) :
    (getPaginatedResources P data).flatten = data ∧
    (getPaginatedResources P data).length = (data.length + P - 1) / P ∧
    ∀ p ∈ getPaginatedResources P data, p ≠ [] := by
  have h := paginateLoop_spec P hP data 0
  simpa [getPaginatedResources] using h

/-- Witness for C1 at page size 2 and a concrete five-element data set. -/
theorem c1_pagination_yields_ceil_pages_full_set_witness :
    0 < 2 ∧
    ((getPaginatedResources 2 [10, 20, 30, 40, 50]).flatten = [10, 20, 30, 40, 50] ∧
      (getPaginatedResources 2 [10, 20, 30, 40, 50]).length =
        (([10, 20, 30, 40, 50] : List Nat).length + 2 - 1) / 2 ∧
      ∀ p ∈ getPaginatedResources 2 [10, 20, 30, 40, 50], p ≠ []) :=
  ⟨by decide, c1_pagination_yields_ceil_pages_full_set 2 (by decide) [10, 20, 30, 40, 50]⟩

/-! ## Resource Fetcher: request path (`client.py`, `_send_api_request`) -/

/-- `MOCK_USERS` (`client.py`). -/
def MOCK_USERS (who : String) : JVal :=
  if who = "john" then
    jobj [("email", jstr "john.doe@company.com"), ("username", jstr "johndoe")]
  else if who = "jane" then
    jobj [("email", jstr "jane.smith@company.com"), ("username", jstr "janesmith")]
  else
    jobj [("email", jstr "bob.wilson@company.com"), ("username", jstr "bobwilson")]

/-- `_get_mock_projects` (`client.py`). -/
def getMockProjects : List JVal :=
  [ jobj [("id", jint 1), ("name", jstr "E-Commerce Platform"),
      ("status", jstr "Active"),
      ("description", jstr "Main e-commerce platform with microservices architecture"),
      ("owner", MOCK_USERS "john"), ("budget", jint 500000),
      ("start_date", jstr "2024-01-15"), ("end_date", jstr "2024-12-31"),
      ("tags", jarr [jstr "microservices", jstr "e-commerce", jstr "critical"]),
      ("azure_devops", jobj [("project_name", jstr "ECommercePlatform")])],
    jobj [("id", jint 2), ("name", jstr "Data Analytics Pipeline"),
      ("status", jstr "Planning"),
      ("description", jstr "Real-time data analytics and reporting system"),
      ("owner", MOCK_USERS "jane"), ("budget", jint 250000),
      ("start_date", jstr "2024-03-01"), ("end_date", jstr "2024-08-31"),
      ("tags", jarr [jstr "analytics", jstr "pipeline", jstr "data"]),
      ("azure_devops", jobj [("project_name", jstr "DataAnalytics")])] ]

/-- `_get_mock_services` (`client.py`); `now` stands for
`datetime.now().isoformat()`. -/
def getMockServices (now : String) : List JVal :=
  [ jobj [("id", jint 101), ("name", jstr "User Authentication Service"),
      ("status", jstr "Running"), ("health_status", jstr "Healthy"),
      ("version", jstr "v2.1.3"),
      ("repository", jobj [("url", jstr "https://github.com/company/auth-service")]),
      ("language", jstr "Python"),
      ("metrics", jobj [("cpu_usage", jfloat 45.2), ("memory_usage_mb", jint 512)]),
      ("last_deployment", jobj [("timestamp", jstr now)]),
      ("azure_devops", jobj [("pipeline_name", jstr "auth-service-ci-cd")]),
      ("project_id", jint 1)],
    jobj [("id", jint 102), ("name", jstr "Payment Processing Service"),
      ("status", jstr "Running"), ("health_status", jstr "Healthy"),
      ("version", jstr "v1.8.1"),
      ("repository", jobj [("url", jstr "https://github.com/company/payment-service")]),
      ("language", jstr "Java"),
      ("metrics", jobj [("cpu_usage", jfloat 32.1), ("memory_usage_mb", jint 768)]),
      ("last_deployment", jobj [("timestamp", jstr now)]),
      ("azure_devops", jobj [("pipeline_name", jstr "payment-service-ci-cd")]),
      ("project_id", jint 1)],
    jobj [("id", jint 103), ("name", jstr "Analytics Ingestion Service"),
      ("status", jstr "Deploying"), ("health_status", jstr "Unknown"),
      ("version", jstr "v0.5.2-beta"),
      ("repository", jobj [("url", jstr "https://github.com/company/analytics-ingest")]),
      ("language", jstr "Go"),
      ("metrics", jobj [("cpu_usage", jint 0), ("memory_usage_mb", jint 0)]),
      ("last_deployment", jobj [("timestamp", jstr now)]),
      ("azure_devops", jobj [("pipeline_name", jstr "analytics-ingest-ci-cd")]),
      ("project_id", jint 2)] ]

/-- `_get_mock_components` (`client.py`). -/
def getMockComponents : List JVal :=
  [ jobj [("id", jint 201), ("name", jstr "JWT Token Manager"),
      ("type", jstr "Library"), ("status", jstr "Active"),
      ("description", jstr "Handles JWT token generation and validation"),
      ("maintainer", MOCK_USERS "john"), ("complexity", jstr "Medium"),
      ("test_coverage", jfloat 85.5), ("service_id", jint 101)],
    jobj [("id", jint 202), ("name", jstr "User Database"),
      ("type", jstr "Database"), ("status", jstr "Active"),
      ("description", jstr "PostgreSQL database for user data"),
      ("maintainer", MOCK_USERS "jane"), ("complexity", jstr "Low"),
      ("test_coverage", jfloat 92.0), ("service_id", jint 101)],
    jobj [("id", jint 203), ("name", jstr "Payment Gateway API"),
      ("type", jstr "API"), ("status", jstr "Active"),
      ("description", jstr "REST API for payment processing"),
      ("maintainer", MOCK_USERS "bob"), ("complexity", jstr "High"),
      ("test_coverage", jfloat 78.3), ("service_id", jint 102)] ]

/-- `_get_mock_deployments` (`client.py`); log bodies elided to a fixed
string, no claim inspects them. -/
def getMockDeployments (now : String) : List JVal :=
  [ jobj [("id", jint 301), ("service_name", jstr "User Authentication Service"),
      ("status", jstr "Success"), ("environment", jstr "Production"),
      ("version", jstr "v2.1.3"), ("deployed_by", MOCK_USERS "john"),
      ("deployment_time", jstr now), ("duration_seconds", jint 180),
      ("azure_devops", jobj [("run_id", jstr "20241005.1")]),
      ("logs", jstr "Deployment successful"), ("service_id", jint 101)],
    jobj [("id", jint 302), ("service_name", jstr "Payment Processing Service"),
      ("status", jstr "Success"), ("environment", jstr "Production"),
      ("version", jstr "v1.8.1"), ("deployed_by", MOCK_USERS "jane"),
      ("deployment_time", jstr now), ("duration_seconds", jint 240),
      ("azure_devops", jobj [("run_id", jstr "20241005.2")]),
      ("logs", jstr "Deployment completed"), ("service_id", jint 102)],
    jobj [("id", jint 303), ("service_name", jstr "Analytics Ingestion Service"),
      ("status", jstr "In Progress"), ("environment", jstr "Staging"),
      ("version", jstr "v0.5.2-beta"), ("deployed_by", MOCK_USERS "bob"),
      ("deployment_time", jstr now), ("duration_seconds", jint 0),
      ("azure_devops", jobj [("run_id", jstr "20241005.3")]),
      ("logs", jstr "Deployment in progress"), ("service_id", jint 103)] ]

/-- `_get_mock_data_for_endpoint` (`client.py` lines 139–151): dispatch the
fixed fallback data set by endpoint kind. -/
def getMockDataForEndpoint (now : String) (endpoint : String) : JVal :=
  if endpoint.startsWith "projects" then jobj [("data", jarr getMockProjects)]
  else if endpoint.startsWith "services" then jobj [("data", jarr (getMockServices now))]
  else if endpoint.startsWith "components" then jobj [("data", jarr getMockComponents)]
  else if endpoint.startsWith "deployments" then jobj [("data", jarr (getMockDeployments now))]
  else jobj [("data", jarr [])]

/-- Client configuration: `base_url` and `api_token` (`client.py`
`__init__`). -/
structure Config where
  baseUrl : String
  apiToken : String

/-- One HTTP request: method, endpoint and query parameters (including the
pagination `skip` offset). -/
structure Request where
  method : String
  endpoint : String
  params : List (String × JVal)

/-- The transport-level result of issuing one request, as seen by
`_send_api_request`: a JSON body on success, an `HTTPStatusError` carrying
the status code and the optional numeric `Retry-After` header, or any other
transport failure (timeout, connection error, ...). -/
inductive HttpOutcome where
  | success : JVal → HttpOutcome
  | httpError : Nat → Option Nat → HttpOutcome
  | transportFailure : HttpOutcome

/-- `_send_api_request` (`client.py` lines 92–137).  The remote is a
collaborator modelled as `transport`, indexed by the attempt number at the
same request.  Fuel makes the unbounded 429 recursion total: `none` means
the call is still retrying after `fuel` attempts (it never returns).  The
result carries the returned JSON body and the list of back-off sleep
durations, in order: on a 429 the duration is the `Retry-After` header,
defaulting to `RETRY_DELAY`, and the identical request is reissued; on any
other HTTP error or transport failure the mock fallback for the endpoint is
returned; with incomplete configuration the mock fallback is returned
immediately. -/
def sendApiRequest (cfg : Config) (transport : Request → Nat → HttpOutcome)
    (now : String) (req : Request) : Nat → Nat → Option (JVal × List Nat)
  | 0, _ => none
  | fuel + 1, attempt =>
    if cfg.baseUrl = "" ∨ cfg.apiToken = "" then
      some (getMockDataForEndpoint now req.endpoint, [])
    else
      match transport req attempt with
      | .success body => some (body, [])
      | .httpError status retryAfter =>
        if status = 429 then
          match sendApiRequest cfg transport now req fuel (attempt + 1) with
          | some (body, sleeps) => some (body, retryAfter.getD RETRY_DELAY :: sleeps)
          | none => none
        else
          some (getMockDataForEndpoint now req.endpoint, [])
      | .transportFailure => some (getMockDataForEndpoint now req.endpoint, [])

/-- C2: on a 429 response `_send_api_request` sleeps for the `Retry-After`
header duration (defaulting to `RETRY_DELAY = 60` when absent) and reissues
the identical request — so a fetch rate-limited once and then successful
returns the same body as an unthrottled fetch, only the same request is ever
consulted, and a persistently rate-limited request retries indefinitely
without ever surfacing an error. -/
theorem c2_rate_limit_retry_resumes_identically (cfg : Config)
    (hurl : cfg.baseUrl ≠ "") (htok : cfg.apiToken ≠ "")
    (now : String) (req : Request) :
    (∀ (t : Request → Nat → HttpOutcome) (h : Nat) (v : JVal) (fuel : Nat),
      t req 0 = .httpError 429 (some h) → t req 1 = .success v →
        sendApiRequest cfg t now req (fuel + 2) 0 = some (v, [h]) ∧
        sendApiRequest cfg (fun _ _ => .success v) now req (fuel + 2) 0 = some (v, [])) ∧
    (∀ (t : Request → Nat → HttpOutcome) (v : JVal) (fuel : Nat),
      t req 0 = .httpError 429 none → t req 1 = .success v →
        sendApiRequest cfg t now req (fuel + 2) 0 = some (v, [RETRY_DELAY])) ∧
    (∀ (t₁ t₂ : Request → Nat → HttpOutcome), (∀ n, t₁ req n = t₂ req n) →
      ∀ fuel attempt,
        sendApiRequest cfg t₁ now req fuel attempt =
          sendApiRequest cfg t₂ now req fuel attempt) ∧
    (∀ (t : Request → Nat → HttpOutcome) (r : Option Nat),
      (∀ n, t req n = .httpError 429 r) →
      ∀ fuel attempt, sendApiRequest cfg t now req fuel attempt = none) := by
  have hcfg : ¬(cfg.baseUrl = "" ∨ cfg.apiToken = "") := by
    intro h; rcases h with h | h
    · exact hurl h
    · exact htok h
  refine ⟨?_, ?_, ?_, ?_⟩
  · intro t h v fuel ht0 ht1
    constructor
    · simp [sendApiRequest, hcfg, ht0, ht1]
    · simp [sendApiRequest, hcfg]
  · intro t v fuel ht0 ht1
    simp [sendApiRequest, hcfg, ht0, ht1, RETRY_DELAY]
  · intro t₁ t₂ hagree fuel
    induction fuel with
    | zero => intro attempt; rfl
    | succ n ih =>
      intro attempt
      simp only [sendApiRequest, hagree attempt]
      cases t₂ req attempt with
      | success body => rfl
      | httpError status retryAfter =>
        by_cases h429 : status = 429
        · simp only [h429, if_pos rfl, ih (attempt + 1)]
        · simp [h429]
      | transportFailure => rfl
  · intro t r hpersist fuel
    induction fuel with
    | zero => intro attempt; rfl
    | succ n ih =>
      intro attempt
      simp [sendApiRequest, hcfg, hpersist attempt, ih (attempt + 1)]

/-- Witness for C2: a transport that is rate-limited once with
`Retry-After: 5` and then succeeds. -/
theorem c2_rate_limit_retry_resumes_identically_witness :
    ((⟨"https://api", "token"⟩ : Config).baseUrl ≠ "" ∧
      (⟨"https://api", "token"⟩ : Config).apiToken ≠ "") ∧
    (sendApiRequest ⟨"https://api", "token"⟩
        (fun _ n => if n = 0 then .httpError 429 (some 5) else .success (jstr "ok"))
        "t0" ⟨"GET", "projects", []⟩ 2 0 = some (jstr "ok", [5]) ∧
      sendApiRequest ⟨"https://api", "token"⟩ (fun _ _ => .success (jstr "ok"))
        "t0" ⟨"GET", "projects", []⟩ 2 0 = some (jstr "ok", [])) := by
  refine ⟨⟨by decide, by decide⟩, ?_⟩
  exact (c2_rate_limit_retry_resumes_identically ⟨"https://api", "token"⟩
    (by decide) (by decide) "t0" ⟨"GET", "projects", []⟩).1
    (fun _ n => if n = 0 then .httpError 429 (some 5) else .success (jstr "ok"))
    5 (jstr "ok") 0 rfl rfl

/-- C3: on any HTTP error other than 429 and on any transport failure,
`_send_api_request` returns the fixed mock fallback data set for the
requested endpoint's resource kind as an ordinary value — the embedding
returns `some` (a result, never a propagated exception) in both cases. -/
theorem c3_non_429_errors_fall_back_to_mock_data (cfg : Config)
    (hurl : cfg.baseUrl ≠ "") (htok : cfg.apiToken ≠ "")
    (now : String) (req : Request) (t : Request → Nat → HttpOutcome) (fuel : Nat) :
    (∀ (status : Nat) (r : Option Nat), t req 0 = .httpError status r → status ≠ 429 →
      sendApiRequest cfg t now req (fuel + 1) 0 =
        some (getMockDataForEndpoint now req.endpoint, [])) ∧
    (t req 0 = .transportFailure →
      sendApiRequest cfg t now req (fuel + 1) 0 =
        some (getMockDataForEndpoint now req.endpoint, [])) := by
  have hcfg : ¬(cfg.baseUrl = "" ∨ cfg.apiToken = "") := by
    intro h; rcases h with h | h
    · exact hurl h
    · exact htok h
  constructor
  · intro status r ht0 hs
    simp [sendApiRequest, hcfg, ht0, hs]
  · intro ht0
    simp [sendApiRequest, hcfg, ht0]

/-- Witness for C3: a 503 response on a `services` endpoint falls back to
the mock service data. -/
theorem c3_non_429_errors_fall_back_to_mock_data_witness :
    ((503 : Nat) ≠ 429) ∧
    sendApiRequest ⟨"https://api", "token"⟩ (fun _ _ => .httpError 503 none)
        "t0" ⟨"GET", "services", []⟩ 1 0 =
      some (getMockDataForEndpoint "t0" "services", []) := by
  refine ⟨by decide, ?_⟩
  exact (c3_non_429_errors_fall_back_to_mock_data ⟨"https://api", "token"⟩
    (by decide) (by decide) "t0" ⟨"GET", "services", []⟩
    (fun _ _ => .httpError 503 none) 0).1 503 none rfl (by decide)

/-! ## Mapping Engine, direct path (`extract_port_json.py`, `SimplePortExtractor`) -/

/-- `v.get(k, default)` on a value expected to be a dictionary; a non-dict
receiver raises `AttributeError` in Python, modelled as `Except.error`. -/
def jvalGet (v : JVal) (k : String) (default : JVal) : Except String JVal :=
  match v with
  | jobj l => .ok (dictGetD l k default)
  | _ => .error "AttributeError"

/-- Python `a or b`: `a` if truthy, else `b`. -/
def pyOr (a b : JVal) : JVal :=
  if pyTruthy a then a else b

/-- `_transform_project` (`extract_port_json.py` lines 75–91). -/
def transformProject (project : List (String × JVal)) :
    Except String (List (String × JVal)) := do
  let owner := dictGetD project "owner" (jobj [])
  let ownerEmail ← jvalGet owner "email" jnull
  let ownerUser ← jvalGet owner "username" jnull
  let azdo := dictGetD project "azure_devops" (jobj [])
  let azdoProject ← jvalGet azdo "project_name" jnull
  .ok [("identifier", jstr (pyStr (dictGetD project "id" (jstr "")))),
    ("title", dictGetD project "name" (jstr "")),
    ("blueprint", jstr "cargProject"),
    ("properties", jobj [
      ("status", dictGetD project "status" jnull),
      ("description", dictGetD project "description" jnull),
      ("owner", pyOr ownerEmail ownerUser),
      ("budget", dictGetD project "budget" jnull),
      ("startDate", dictGetD project "start_date" jnull),
      ("endDate", dictGetD project "end_date" jnull),
      ("tags", dictGetD project "tags" (jarr [])),
      ("azureDevOpsProject", azdoProject)])]

/-- `_transform_service` (`extract_port_json.py` lines 93–113).  Note the
relations value: `str(service.get("project_id", ""))`. -/
def transformService (service : List (String × JVal)) :
    Except String (List (String × JVal)) := do
  let repo := dictGetD service "repository" (jobj [])
  let repoUrl ← jvalGet repo "url" jnull
  let metrics := dictGetD service "metrics" (jobj [])
  let cpu ← jvalGet metrics "cpu_usage" jnull
  let memory ← jvalGet metrics "memory_usage_mb" jnull
  let lastDep := dictGetD service "last_deployment" (jobj [])
  let lastTs ← jvalGet lastDep "timestamp" jnull
  let azdo := dictGetD service "azure_devops" (jobj [])
  let pipeline ← jvalGet azdo "pipeline_name" jnull
  .ok [("identifier", jstr (pyStr (dictGetD service "id" (jstr "")))),
    ("title", dictGetD service "name" (jstr "")),
    ("blueprint", jstr "cargService"),
    ("properties", jobj [
      ("status", dictGetD service "status" jnull),
      ("healthStatus", dictGetD service "health_status" (jstr "Unknown")),
      ("version", dictGetD service "version" jnull),
      ("repository", repoUrl),
      ("language", dictGetD service "language" jnull),
      ("cpu", cpu),
      ("memory", memory),
      ("lastDeployment", lastTs),
      ("azurePipeline", pipeline)]),
    ("relations", jobj [
      ("project", jstr (pyStr (dictGetD service "project_id" (jstr ""))))])]

/-- `_transform_component` (`extract_port_json.py` lines 115–132). -/
def transformComponent (component : List (String × JVal)) :
    Except String (List (String × JVal)) := do
  let maintainer := dictGetD component "maintainer" (jobj [])
  let mEmail ← jvalGet maintainer "email" jnull
  let mUser ← jvalGet maintainer "username" jnull
  .ok [("identifier", jstr (pyStr (dictGetD component "id" (jstr "")))),
    ("title", dictGetD component "name" (jstr "")),
    ("blueprint", jstr "cargComponent"),
    ("properties", jobj [
      ("type", dictGetD component "type" jnull),
      ("status", dictGetD component "status" jnull),
      ("description", dictGetD component "description" jnull),
      ("maintainer", pyOr mEmail mUser),
      ("complexity", dictGetD component "complexity" jnull),
      ("testCoverage", dictGetD component "test_coverage" jnull)]),
    ("relations", jobj [
      ("service", jstr (pyStr (dictGetD component "service_id" (jstr ""))))])]

/-- `_transform_deployment` (`extract_port_json.py` lines 134–158): the
title is the fixed `f"{service_name} - {environment} - {version}"`
concatenation. -/
def transformDeployment (deployment : List (String × JVal)) :
    Except String (List (String × JVal)) := do
  let serviceName := dictGetD deployment "service_name" (jstr "")
  let environment := dictGetD deployment "environment" (jstr "")
  let version := dictGetD deployment "version" (jstr "")
  let title := pyStr serviceName ++ " - " ++ pyStr environment ++ " - " ++ pyStr version
  let deployedBy := dictGetD deployment "deployed_by" (jobj [])
  let dEmail ← jvalGet deployedBy "email" jnull
  let dUser ← jvalGet deployedBy "username" jnull
  let azdo := dictGetD deployment "azure_devops" (jobj [])
  let runId ← jvalGet azdo "run_id" jnull
  .ok [("identifier", jstr (pyStr (dictGetD deployment "id" (jstr "")))),
    ("title", jstr title),
    ("blueprint", jstr "cargDeployment"),
    ("properties", jobj [
      ("status", dictGetD deployment "status" jnull),
      ("environment", dictGetD deployment "environment" jnull),
      ("version", dictGetD deployment "version" jnull),
      ("deployedBy", pyOr dEmail dUser),
      ("deploymentTime", dictGetD deployment "deployment_time" jnull),
      ("duration", dictGetD deployment "duration_seconds" jnull),
      ("azurePipelineRun", runId),
      ("logs", dictGetD deployment "logs" jnull)]),
    ("relations", jobj [
      ("service", jstr (pyStr (dictGetD deployment "service_id" (jstr ""))))])]

/-- The four synchronized resource kinds. -/
inductive Kind where
  | project | service | component | deployment
deriving DecidableEq

/-- Dispatch to the kind's hardcoded transform. -/
def transformFor : Kind → List (String × JVal) → Except String (List (String × JVal))
  | .project => transformProject
  | .service => transformService
  | .component => transformComponent
  | .deployment => transformDeployment

/-- The blueprint tag each transform hardcodes. -/
def blueprintIdOf : Kind → String
  | .project => "cargProject"
  | .service => "cargService"
  | .component => "cargComponent"
  | .deployment => "cargDeployment"

/-! ## Mapping Engine, expression path (`extract_port_simple.py`, `_transform_item`) -/

/-- Modelled from the spec (§4.2): the declarative mapping specification
loaded from `.port/resources/port-app-config.yml`, a file that is not under
`src`.  Target field names map to query expressions, and the `relations`
target is special-cased as a nested mapping of relation name to
expression. -/
structure MappingSpec where
  fields : List (String × String)
  relations : Option (List (String × String))

/-- The outcome of `jq.compile(expr).input(item).first()` for one
expression: the jq engine is an external library, modelled abstractly as a
function from the expression to a raised error (`Except.error`), no value
(`.ok none`) or a value (`.ok (some v)`); the raw item is baked into the
evaluator. -/
def EvalFn : Type := String → Except String (Option JVal)

/-- One loop step of `_transform_item`: keep the binding only when the
expression evaluates to a non-`None` value; a raised error or a `None`
result contributes nothing (`except Exception: pass`). -/
def evalBinding (ev : EvalFn) (fe : String × String) : Option (String × JVal) :=
  match ev fe.2 with
  | .ok (some v) => some (fe.1, v)
  | _ => none

/-- The relations loop of `_transform_item` (lines 84–92): evaluate each
relation expression, keeping only non-`None`, non-raising results. -/
def transformRelations (ev : EvalFn) (rels : List (String × String)) :
    List (String × JVal) :=
  rels.filterMap (evalBinding ev)

/-- `_transform_item` (`extract_port_simple.py` lines 78–104): each target
field is evaluated independently; a field whose expression yields no value
or raises is skipped; the `relations` mapping is special-cased and the
`relations` key is added only when at least one relation evaluated to a
value. -/
def transformItem (ev : EvalFn) (spec : MappingSpec) : List (String × JVal) :=
  let fieldsPart := spec.fields.filterMap (evalBinding ev)
  match spec.relations with
  | none => fieldsPart
  | some rels =>
    let relations := transformRelations ev rels
    if relations.isEmpty then fieldsPart
    else fieldsPart ++ [("relations", jobj relations)]

/-! ## Validator (`validate_port_objects.py`, `PortObjectValidator`) -/

/-- Error text for a missing or empty required field
(`validate_port_objects.py` line 85). -/
def msgMissingField (objId field : String) : String :=
  objId ++ ": Missing or empty required field '" ++ field ++ "'"

/-- Error text for an unregistered blueprint (line 90). -/
def msgUnknownBlueprint (objId bpName : String) : String :=
  objId ++ ": Unknown blueprint '" ++ bpName ++ "'"

/-- Error text for a non-string identifier (line 95). -/
def msgIdentifierType (objId tyName : String) : String :=
  objId ++ ": Identifier must be string, got " ++ tyName

/-- Error text for a non-dict `properties` value (line 100). -/
def msgPropertiesDict (objId : String) : String :=
  objId ++ ": Properties must be a dictionary"

/-- Warning text for a null-valued property (line 105). -/
def msgNullProperty (objId propName : String) : String :=
  objId ++ ": Property '" ++ propName ++ "' is null"

/-- Error text for a non-dict `relations` value (line 110). -/
def msgRelationsDict (objId : String) : String :=
  objId ++ ": Relations must be a dictionary"

/-- Error text for a non-string relation value (line 114). -/
def msgRelationType (objId relName : String) : String :=
  objId ++ ": Relation '" ++ relName ++ "' must be string identifier"

/-- The required-fields loop of `_validate_single_object` (lines 82–85):
`identifier`, `title`, `blueprint` must be present and truthy. -/
def requiredFieldErrors (obj : List (String × JVal)) (objId : String) : List String :=
  ["identifier", "title", "blueprint"].filterMap fun field =>
    match dictGet obj field with
    | none => some (msgMissingField objId field)
    | some v => if pyTruthy v then none else some (msgMissingField objId field)

/-- The blueprint-registry check (lines 88–90): a truthy blueprint value
that is not a registered blueprint identifier is an error.  The registry's
key set is the parameter `blueprints`; the registry itself is loaded from
`.port/resources/blueprints.json`, which is not under `src`. -/
def blueprintErrors (blueprints : List String) (obj : List (String × JVal))
    (objId : String) : List String :=
  let bpv := dictGetD obj "blueprint" jnull
  let inRegistry :=
    match bpv with
    | jstr s => blueprints.contains s
    | _ => false
  if pyTruthy bpv && !inRegistry then [msgUnknownBlueprint objId (pyStr bpv)] else []

/-- The identifier-format check (lines 93–95): a truthy, non-string
identifier is an error. -/
def identifierErrors (obj : List (String × JVal)) (objId : String) : List String :=
  let idv := dictGetD obj "identifier" jnull
  if pyTruthy idv && !isStr idv then [msgIdentifierType objId (pyTypeName idv)] else []

/-- The properties check (lines 97–105): `properties`, when present, must be
a dict (error otherwise); a null-valued property is a warning. -/
def propertiesCheck (obj : List (String × JVal)) (objId : String) :
    List String × List String :=
  match dictGet obj "properties" with
  | none => ([], [])
  | some (jobj props) =>
    ([], props.filterMap fun kv =>
      match kv.2 with
      | jnull => some (msgNullProperty objId kv.1)
      | _ => none)
  | some _ => ([msgPropertiesDict objId], [])

/-- The relations check (lines 107–114): `relations`, when present, must be
a dict whose values are all strings. -/
def relationsErrors (obj : List (String × JVal)) (objId : String) : List String :=
  match dictGet obj "relations" with
  | none => []
  | some (jobj rels) =>
    rels.filterMap fun kv =>
      if isStr kv.2 then none else some (msgRelationType objId kv.1)
  | some _ => [msgRelationsDict objId]

/-- `_validate_single_object` (`validate_port_objects.py` lines 76–116):
accumulate the errors of every check in source order, plus the null-property
warnings. -/
def validateSingleObject (blueprints : List String) (obj : List (String × JVal))
    (objId : String) : List String × List String :=
  let propsPart := propertiesCheck obj objId
  (requiredFieldErrors obj objId ++ blueprintErrors blueprints obj objId ++
    identifierErrors obj objId ++ propsPart.1 ++ relationsErrors obj objId,
    propsPart.2)

/-- Per-kind counters (`kind_results` in `validate_port_objects`). -/
structure KindResults where
  count : Nat
  validObjects : Nat
  errors : List String
  warnings : List String

/-- The aggregate result record built by `validate_port_objects`. -/
structure ValidationResults where
  valid : Bool
  totalObjects : Nat
  validationErrors : List String
  validationWarnings : List String
  summary : List (String × KindResults)

/-- `f"{kind}[{i}]"`. -/
def objIdOf (kind : String) (i : Nat) : String :=
  kind ++ "[" ++ natRepr i ++ "]"

/-- Python dict assignment `d[k] = v`: replace the first binding of `k` in
place, else append. -/
def dictSet {α : Type} : List (String × α) → String → α → List (String × α)
  | [], k, v => [(k, v)]
  | (k', v') :: rest, k, v =>
    if k' = k then (k, v) :: rest else (k', v') :: dictSet rest k v

/-- The inner object loop of `validate_port_objects` (lines 49–62): validate
each object at its index, extend the per-kind and aggregate error/warning
lists, clear the validity flag on any error, count error-free objects. -/
def validateObjectsLoop (blueprints : List String) (kind : String) :
    Nat → List (List (String × JVal)) → KindResults → ValidationResults →
    KindResults × ValidationResults
  | _, [], kr, res => (kr, res)
  | i, obj :: rest, kr, res =>
    let ew := validateSingleObject blueprints obj (objIdOf kind i)
    let kr1 :=
      if !ew.1.isEmpty then { kr with errors := kr.errors ++ ew.1 }
      else { kr with validObjects := kr.validObjects + 1 }
    let res1 :=
      if !ew.1.isEmpty then
        { res with validationErrors := res.validationErrors ++ ew.1, valid := false }
      else res
    let kr2 :=
      if !ew.2.isEmpty then { kr1 with warnings := kr1.warnings ++ ew.2 } else kr1
    let res2 :=
      if !ew.2.isEmpty then
        { res1 with validationWarnings := res1.validationWarnings ++ ew.2 }
      else res1
    validateObjectsLoop blueprints kind (i + 1) rest kr2 res2

/-- The outer kind loop of `validate_port_objects` (lines 39–72). -/
def validateKindsLoop (blueprints : List String) :
    List (String × List (List (String × JVal))) → ValidationResults →
    ValidationResults
  | [], res => res
  | (kind, objs) :: rest, res =>
    let start : KindResults := ⟨objs.length, 0, [], []⟩
    let step := validateObjectsLoop blueprints kind 0 objs start res
    let res2 :=
      { step.2 with
        totalObjects := step.2.totalObjects + objs.length,
        summary := dictSet step.2.summary kind step.1 }
    validateKindsLoop blueprints rest res2

/-- `validate_port_objects` (`validate_port_objects.py` lines 29–74). -/
def validatePortObjects (blueprints : List String)
    (portObjects : List (String × List (List (String × JVal)))) :
    ValidationResults :=
  validateKindsLoop blueprints portObjects ⟨true, 0, [], [], []⟩

/-- The errors of one kind's objects in visit order, indices starting at
`i` (the reference accumulation `validate_port_objects` must match). -/
def gatherKindErrors (blueprints : List String) (kind : String) :
    Nat → List (List (String × JVal)) → List String
  | _, [] => []
  | i, obj :: rest =>
    (validateSingleObject blueprints obj (objIdOf kind i)).1 ++
      gatherKindErrors blueprints kind (i + 1) rest

/-- The warnings of one kind's objects in visit order. -/
def gatherKindWarnings (blueprints : List String) (kind : String) :
    Nat → List (List (String × JVal)) → List String
  | _, [] => []
  | i, obj :: rest =>
    (validateSingleObject blueprints obj (objIdOf kind i)).2 ++
      gatherKindWarnings blueprints kind (i + 1) rest

/-- All errors over all kinds, in visit order. -/
def gatherErrors (blueprints : List String) :
    List (String × List (List (String × JVal))) → List String
  | [] => []
  | (kind, objs) :: rest =>
    gatherKindErrors blueprints kind 0 objs ++ gatherErrors blueprints rest

/-- All warnings over all kinds, in visit order. -/
def gatherWarnings (blueprints : List String) :
    List (String × List (List (String × JVal))) → List String
  | [] => []
  | (kind, objs) :: rest =>
    gatherKindWarnings blueprints kind 0 objs ++ gatherWarnings blueprints rest

/-- The object loop with the traversed input made explicit: the loop only
ever reads each object and passes it through, so the visited list is
returned alongside the results (frame property, claim C10). -/
def validateObjectsLoopFr (blueprints : List String) (kind : String) :
    Nat → List (List (String × JVal)) → KindResults → ValidationResults →
    List (List (String × JVal)) × KindResults × ValidationResults
  | _, [], kr, res => ([], kr, res)
  | i, obj :: rest, kr, res =>
    let ew := validateSingleObject blueprints obj (objIdOf kind i)
    let kr1 :=
      if !ew.1.isEmpty then { kr with errors := kr.errors ++ ew.1 }
      else { kr with validObjects := kr.validObjects + 1 }
    let res1 :=
      if !ew.1.isEmpty then
        { res with validationErrors := res.validationErrors ++ ew.1, valid := false }
      else res
    let kr2 :=
      if !ew.2.isEmpty then { kr1 with warnings := kr1.warnings ++ ew.2 } else kr1
    let res2 :=
      if !ew.2.isEmpty then
        { res1 with validationWarnings := res1.validationWarnings ++ ew.2 }
      else res1
    let step := validateObjectsLoopFr blueprints kind (i + 1) rest kr2 res2
    (obj :: step.1, step.2)

/-- The kind loop with the traversed input made explicit. -/
def validateKindsLoopFr (blueprints : List String) :
    List (String × List (List (String × JVal))) → ValidationResults →
    List (String × List (List (String × JVal))) × ValidationResults
  | [], res => ([], res)
  | (kind, objs) :: rest, res =>
    let start : KindResults := ⟨objs.length, 0, [], []⟩
    let step := validateObjectsLoopFr blueprints kind 0 objs start res
    let res2 :=
      { step.2.2 with
        totalObjects := step.2.2.totalObjects + objs.length,
        summary := dictSet step.2.2.summary kind step.2.1 }
    let tail := validateKindsLoopFr blueprints rest res2
    ((kind, step.1) :: tail.1, tail.2)

/-- `validate_port_objects` with the traversed input returned explicitly. -/
def validatePortObjectsFr (blueprints : List String)
    (portObjects : List (String × List (List (String × JVal)))) :
    List (String × List (List (String × JVal))) × ValidationResults :=
  validateKindsLoopFr blueprints portObjects ⟨true, 0, [], [], []⟩

/-! ## Blueprint-schema validator (`extract_port_objects.py`, `PortObjectExtractor`) -/

/-- Association-list lookup for non-`JVal` values. -/
def assocGet {α : Type} : List (String × α) → String → Option α
  | [], _ => none
  | (k', v) :: rest, k => if k' = k then some v else assocGet rest k

/-- A blueprint definition as read by `validate_object_against_blueprint`:
`schemaProperties` is `blueprint["schema"]["properties"]` when both levels
exist, mapping each declared property name to its optional `type` string;
`relations` is `blueprint["relations"]` when present.  The blueprint file
itself (`.port/resources/blueprints.json`) is not under `src`. -/
structure Blueprint where
  identifier : String
  schemaProperties : Option (List (String × Option String))
  relations : Option (List String)

/-- Error text for a property type mismatch
(`extract_port_objects.py` lines 204–211). -/
def msgPropertyType (objPath propName expected got : String) : String :=
  objPath ++ ": Property '" ++ propName ++ "' should be " ++ expected ++ ", got " ++ got

/-- Error text for a missing required field (line 191). -/
def msgMissingRequired (objPath field : String) : String :=
  objPath ++ ": Missing required field '" ++ field ++ "'"

/-- Error text for an undeclared relation name (line 220). -/
def msgUnknownRelation (objPath relName : String) : String :=
  objPath ++ ": Unknown relation '" ++ relName ++ "'"

/-- The per-property body of the schema type check
(`extract_port_objects.py` lines 198–211): a property not declared in the
schema, or declared with an unrecognized (or absent) type, is not checked;
`string` / `number` / `boolean` / `array` declarations are checked against
the Python runtime type (`bool` counts as a number, as in Python). -/
def propTypeError (schemaProps : List (String × Option String)) (objPath : String)
    (kv : String × JVal) : Option String :=
  match assocGet schemaProps kv.1 with
  | none => none
  | some propType =>
    match propType with
    | some "string" =>
      if isStr kv.2 then none
      else some (msgPropertyType objPath kv.1 "string" (pyTypeName kv.2))
    | some "number" =>
      if isNumberPy kv.2 then none
      else some (msgPropertyType objPath kv.1 "number" (pyTypeName kv.2))
    | some "boolean" =>
      if isBoolPy kv.2 then none
      else some (msgPropertyType objPath kv.1 "boolean" (pyTypeName kv.2))
    | some "array" =>
      if isListPy kv.2 then none
      else some (msgPropertyType objPath kv.1 "array" (pyTypeName kv.2))
    | _ => none

/-- The required-fields loop of `validate_object_against_blueprint`
(lines 188–191): presence only — an empty value passes. -/
def requiredFieldMissingErrors (obj : List (String × JVal)) (objPath : String) :
    List String :=
  ["identifier", "title", "blueprint"].filterMap fun field =>
    match dictGet obj field with
    | none => some (msgMissingRequired objPath field)
    | some _ => none

/-- `validate_object_against_blueprint` (`extract_port_objects.py`
lines 183–222).  Iterating `.items()` over a non-dict `properties` or
`relations` value raises in Python, modelled as `Except.error`. -/
def validateObjectAgainstBlueprint (obj : List (String × JVal)) (bp : Blueprint)
    (objPath : String) : Except String (List String) := do
  let reqErrors := requiredFieldMissingErrors obj objPath
  let propErrors ←
    match bp.schemaProperties with
    | none => Except.ok []
    | some schemaProps =>
      match dictGet obj "properties" with
      | none => Except.ok []
      | some (jobj props) => Except.ok (props.filterMap (propTypeError schemaProps objPath))
      | some _ => Except.error "AttributeError"
  let relErrors ←
    match bp.relations with
    | none => Except.ok []
    | some bpRels =>
      match dictGet obj "relations" with
      | none => Except.ok []
      | some (jobj rels) =>
        Except.ok (rels.filterMap fun kv =>
          if bpRels.contains kv.1 then none else some (msgUnknownRelation objPath kv.1))
      | some _ => Except.error "AttributeError"
  .ok (reqErrors ++ propErrors ++ relErrors)

/-! ## Helper lemmas -/

theorem dictGet_eq_none_iff (l : List (String × JVal)) (k : String) :
    dictGet l k = none ↔ ∀ p ∈ l, p.1 ≠ k := by
  induction l with
  | nil => simp [dictGet]
  | cons hd tl ih =>
    obtain ⟨k', v⟩ := hd
    by_cases h : k' = k
    · simp [dictGet, h]
    · simp [dictGet, h, ih]

theorem dictGet_append (a b : List (String × JVal)) (k : String) :
    dictGet (a ++ b) k =
      match dictGet a k with
      | some v => some v
      | none => dictGet b k := by
  induction a with
  | nil => simp [dictGet]
  | cons hd tl ih =>
    obtain ⟨k', v⟩ := hd
    by_cases h : k' = k
    · simp [dictGet, h]
    · simp [dictGet, h, ih]

theorem dictGet_eq_some_of_mem_nodup {l : List (String × JVal)} {k : String}
    {v : JVal} (hmem : (k, v) ∈ l) (hnd : (l.map Prod.fst).Nodup) :
    dictGet l k = some v := by
  induction l with
  | nil => cases hmem
  | cons hd tl ih =>
    obtain ⟨k', v'⟩ := hd
    rcases List.mem_cons.mp hmem with h | h
    · obtain ⟨h1, h2⟩ := Prod.mk.injEq .. ▸ h
      simp [dictGet, h1.symm, h2]
    · have hnotin : k' ∉ tl.map Prod.fst ∧ (tl.map Prod.fst).Nodup := by
        simpa using hnd
      have hk : k' ≠ k := by
        intro he
        exact hnotin.1 (he ▸ List.mem_map.mpr ⟨(k, v), h, rfl⟩)
      simp [dictGet, hk, ih h hnotin.2]

theorem natRepr_ne_empty (n : Nat) : natRepr n ≠ "" := by
  unfold natRepr
  by_cases h : n = 0
  · simp [h]
  · rw [if_neg h]
    obtain ⟨m, rfl⟩ := Nat.exists_eq_succ_of_ne_zero h
    intro hcon
    have : ((natDigitsRevAux (m + 1) (m + 1)).reverse) = [] := by
      have := congrArg String.data hcon
      simpa using this
    rw [List.reverse_eq_nil_iff] at this
    have h2 : natDigitsRevAux (m + 1) (m + 1) =
        Nat.digitChar ((m + 1) % 10) :: natDigitsRevAux ((m + 1) / 10) m := rfl
    rw [h2] at this
    cases this

theorem intRepr_ne_empty (n : Int) : intRepr n ≠ "" := by
  unfold intRepr
  by_cases h : n < 0
  · rw [if_pos h]
    intro hcon
    have : ("-" ++ natRepr n.natAbs).length = 0 := by rw [hcon]; rfl
    rw [String.length_append] at this
    rw [show ("-" : String).length = 1 from rfl] at this
    omega
  · rw [if_neg h]
    exact natRepr_ne_empty _

theorem pyTruthy_intRepr (n : Int) : pyTruthy (jstr (intRepr n)) = true := by
  simp [pyTruthy, intRepr_ne_empty n]

theorem except_bind_ok {ε α β : Type} (x : Except ε α) (f : α → Except ε β) (b : β) :
    (x >>= f) = .ok b ↔ ∃ a, x = .ok a ∧ f a = .ok b := by
  cases x with
  | error e => simp [Bind.bind, Except.bind]
  | ok a => simp [Bind.bind, Except.bind]

theorem evalBinding_name {ev : EvalFn} {fe : String × String} {p : String × JVal}
    (h : evalBinding ev fe = some p) : p.1 = fe.1 := by
  unfold evalBinding at h
  rcases hev : ev fe.2 with e | o
  · rw [hev] at h; cases h
  · rw [hev] at h
    cases o with
    | none => cases h
    | some v => cases h; rfl

theorem transformItem_mem {ev : EvalFn} {spec : MappingSpec} {p : String × JVal}
    (h : p ∈ transformItem ev spec) :
    p ∈ spec.fields.filterMap (evalBinding ev) ∨ p.1 = "relations" := by
  unfold transformItem at h
  cases hr : spec.relations with
  | none => rw [hr] at h; exact Or.inl h
  | some rels =>
    rw [hr] at h
    dsimp only at h
    by_cases he : (transformRelations ev rels).isEmpty
    · rw [if_pos he] at h; exact Or.inl h
    · rw [if_neg he] at h
      rcases List.mem_append.mp h with h | h
      · exact Or.inl h
      · right
        rcases List.mem_singleton.mp h with rfl
        rfl

theorem fieldsPart_names_sublist (ev : EvalFn) (l : List (String × String)) :
    ((l.filterMap (evalBinding ev)).map Prod.fst).Sublist (l.map Prod.fst) := by
  induction l with
  | nil => simp
  | cons fe tl ih =>
    rcases hev : evalBinding ev fe with _ | p
    · simp only [List.filterMap_cons, hev, List.map_cons]
      exact ih.cons _
    · simp only [List.filterMap_cons, hev, List.map_cons, evalBinding_name hev]
      exact ih.cons₂ _

/-- C4 counterexample: `_transform_service` applied to a service raw item
that lacks `project_id` produces an object whose `relations.project` is
present and bound to the empty string — not omitted. -/
theorem c4_counterexample_service_relation_not_omitted :
    dictGet [("id", jint 101), ("name", jstr "Svc")] "project_id" = none ∧
    (transformService [("id", jint 101), ("name", jstr "Svc")]).map
        (fun obj => dictGet obj "relations") =
      Except.ok (some (jobj [("project", jstr "")])) :=
  ⟨rfl, rfl⟩

/-- C4 (amended): in the expression-mapping path (`_transform_item`), a
target field or relation whose expression yields no value or raises is
omitted entirely, each binding is evaluated independently (one failure never
aborts the others), and the `relations` key is absent when no relation
evaluated; but in the direct-mapping path, `_transform_service` on an item
lacking `project_id` binds `relations.project` to the empty string instead
of omitting it. -/
theorem c4_amended_field_omission_and_independence (ev : EvalFn) (spec : MappingSpec) :
    (∀ fe ∈ spec.fields, evalBinding ev fe = none →
      (spec.fields.map Prod.fst).Nodup → fe.1 ≠ "relations" →
      dictGet (transformItem ev spec) fe.1 = none) ∧
    (∀ fe ∈ spec.fields, ∀ v, ev fe.2 = .ok (some v) →
      (spec.fields.map Prod.fst).Nodup → fe.1 ≠ "relations" →
      dictGet (transformItem ev spec) fe.1 = some v) ∧
    (∀ rels, spec.relations = some rels →
      (∀ re ∈ rels, evalBinding ev re = none) →
      (∀ p ∈ spec.fields, p.1 ≠ "relations") →
      dictGet (transformItem ev spec) "relations" = none) ∧
    (∀ rels re, re ∈ rels → evalBinding ev re = none →
      (rels.map Prod.fst).Nodup →
      dictGet (transformRelations ev rels) re.1 = none) ∧
    (∀ service, dictGet service "project_id" = none →
      ∀ obj, transformService service = .ok obj →
        dictGet obj "relations" = some (jobj [("project", jstr "")])) := by
  refine ⟨?_, ?_, ?_, ?_, ?_⟩
  · intro fe hfe hnone hnd hnrel
    rw [dictGet_eq_none_iff]
    intro p hp
    rcases transformItem_mem hp with h | h
    · rcases List.mem_filterMap.mp h with ⟨fe', hfe', hsome⟩
      rw [evalBinding_name hsome]
      intro heq
      have : fe' = fe := List.inj_on_of_nodup_map hnd hfe' hfe heq
      rw [this, hnone] at hsome
      cases hsome
    · rw [h]; exact fun he => hnrel he.symm
  · intro fe hfe v hev hnd hnrel
    have hmem : (fe.1, v) ∈ spec.fields.filterMap (evalBinding ev) :=
      List.mem_filterMap.mpr ⟨fe, hfe, by simp [evalBinding, hev]⟩
    have hndf : ((spec.fields.filterMap (evalBinding ev)).map Prod.fst).Nodup :=
      (fieldsPart_names_sublist ev spec.fields).nodup hnd
    have hget : dictGet (spec.fields.filterMap (evalBinding ev)) fe.1 = some v :=
      dictGet_eq_some_of_mem_nodup hmem hndf
    unfold transformItem
    cases spec.relations with
    | none => exact hget
    | some rels =>
      dsimp only
      by_cases he : (transformRelations ev rels).isEmpty
      · rw [if_pos he]; exact hget
      · rw [if_neg he, dictGet_append, hget]
  · intro rels hrels hall hfieldnames
    have hempty : transformRelations ev rels = [] := by
      unfold transformRelations
      exact List.filterMap_eq_nil_iff.mpr hall
    unfold transformItem
    rw [hrels]
    dsimp only
    rw [hempty]
    simp only [List.isEmpty_nil, if_pos]
    rw [dictGet_eq_none_iff]
    intro p hp
    rcases List.mem_filterMap.mp hp with ⟨fe', hfe', hsome⟩
    rw [evalBinding_name hsome]
    exact hfieldnames fe' hfe'
  · intro rels re hre hnone hnd
    rw [dictGet_eq_none_iff]
    intro p hp
    rcases List.mem_filterMap.mp hp with ⟨re', hre', hsome⟩
    rw [evalBinding_name hsome]
    intro heq
    have : re' = re := List.inj_on_of_nodup_map hnd hre' hre heq
    rw [this, hnone] at hsome
    cases hsome
  · intro service hmissing obj hok
    unfold transformService at hok
    simp only [except_bind_ok] at hok
    obtain ⟨v1, _, v2, _, v3, _, v4, _, v5, _, hfin⟩ := hok
    have hobj : obj =
        [("identifier", jstr (pyStr (dictGetD service "id" (jstr "")))),
          ("title", dictGetD service "name" (jstr "")),
          ("blueprint", jstr "cargService"),
          ("properties", jobj [
            ("status", dictGetD service "status" jnull),
            ("healthStatus", dictGetD service "health_status" (jstr "Unknown")),
            ("version", dictGetD service "version" jnull),
            ("repository", v1), ("language", dictGetD service "language" jnull),
            ("cpu", v2), ("memory", v3), ("lastDeployment", v4),
            ("azurePipeline", v5)]),
          ("relations", jobj [
            ("project", jstr (pyStr (dictGetD service "project_id" (jstr ""))))])] := by
      cases hfin; rfl
    rw [hobj]
    have hval : dictGetD service "project_id" (jstr "") = jstr "" := by
      unfold dictGetD
      rw [hmissing]
      rfl
    rw [hval]
    rfl

/-- Witness for C4: the amended theorem applied to a one-field mapping whose
expression yields no value, together with the concrete `_transform_service`
fact at a service item lacking `project_id`. -/
theorem c4_amended_field_omission_and_independence_witness :
    (evalBinding (fun _ => Except.ok none) ("status", ".status") = none ∧
      dictGet (transformItem (fun _ => Except.ok none)
        ⟨[("status", ".status")], none⟩) "status" = none) ∧
    (dictGet [("id", jint 7)] "project_id" = none ∧
      ∀ obj, transformService [("id", jint 7)] = .ok obj →
        dictGet obj "relations" = some (jobj [("project", jstr "")])) := by
  constructor
  · refine ⟨rfl, ?_⟩
    exact (c4_amended_field_omission_and_independence (fun _ => Except.ok none)
      ⟨[("status", ".status")], none⟩).1 ("status", ".status") (by simp) rfl
      (by simp) (by decide)
  · refine ⟨rfl, ?_⟩
    exact (c4_amended_field_omission_and_independence (fun _ => Except.ok none)
      ⟨[], none⟩).2.2.2.2 [("id", jint 7)] rfl

/-- C5: in `_validate_single_object` a missing or falsy (empty) `identifier`,
`title` or `blueprint` records an error for the object, and conversely an
object that passes with no error has all three present and non-empty
(truthy).  (The secondary extractor validator checks presence only; the
Validator component proper enforces both.) -/
theorem c5_required_fields_present_and_nonempty (blueprints : List String)
    (obj : List (String × JVal)) (objId : String) :
    (∀ field ∈ (["identifier", "title", "blueprint"] : List String),
      (dictGet obj field = none ∨
        ∃ v, dictGet obj field = some v ∧ pyTruthy v = false) →
      msgMissingField objId field ∈ (validateSingleObject blueprints obj objId).1) ∧
    ((validateSingleObject blueprints obj objId).1 = [] →
      ∀ field ∈ (["identifier", "title", "blueprint"] : List String),
        ∃ v, dictGet obj field = some v ∧ pyTruthy v = true) := by
  constructor
  · intro field hfield hbad
    have hmem : msgMissingField objId field ∈ requiredFieldErrors obj objId := by
      refine List.mem_filterMap.mpr ⟨field, hfield, ?_⟩
      rcases hbad with h | ⟨v, hv, hfalse⟩
      · rw [h]
      · rw [hv]
        simp [hfalse]
    unfold validateSingleObject
    dsimp only
    exact List.mem_append_left _ (List.mem_append_left _ (List.mem_append_left _
      (List.mem_append_left _ hmem)))
  · intro hempty field hfield
    have hreq : requiredFieldErrors obj objId = [] := by
      unfold validateSingleObject at hempty
      dsimp only at hempty
      rcases List.append_eq_nil.mp hempty with ⟨h1, _⟩
      rcases List.append_eq_nil.mp h1 with ⟨h2, _⟩
      rcases List.append_eq_nil.mp h2 with ⟨h3, _⟩
      exact (List.append_eq_nil.mp h3).1
    have hfn := List.filterMap_eq_nil_iff.mp hreq field hfield
    rcases hv : dictGet obj field with _ | v
    · rw [hv] at hfn; cases hfn
    · rw [hv] at hfn
      refine ⟨v, rfl, ?_⟩
      by_cases ht : pyTruthy v
      · exact ht
      · simp [ht] at hfn

/-- Witness for C5: an object missing `identifier` is flagged, and an object
with all three fields truthy and no other issue passes, exercising both
directions. -/
theorem c5_required_fields_present_and_nonempty_witness :
    ("identifier" ∈ (["identifier", "title", "blueprint"] : List String) ∧
      msgMissingField "carg-project[0]" "identifier" ∈
        (validateSingleObject ["cargProject"] [("title", jstr "T")]
          "carg-project[0]").1) ∧
    ((validateSingleObject ["cargProject"]
        [("identifier", jstr "1"), ("title", jstr "T"), ("blueprint", jstr "cargProject")]
        "carg-project[0]").1 = [] ∧
      ∃ v, dictGet [("identifier", jstr "1"), ("title", jstr "T"),
          ("blueprint", jstr "cargProject")] "title" = some v ∧ pyTruthy v = true) := by
  constructor
  · refine ⟨by decide, ?_⟩
    exact (c5_required_fields_present_and_nonempty ["cargProject"]
      [("title", jstr "T")] "carg-project[0]").1 "identifier" (by decide)
      (Or.inl rfl)
  · refine ⟨rfl, ?_⟩
    exact (c5_required_fields_present_and_nonempty ["cargProject"]
      [("identifier", jstr "1"), ("title", jstr "T"), ("blueprint", jstr "cargProject")]
      "carg-project[0]").2 rfl "title" (by decide)

/-- C7 counterexample: a null-valued property whose declared schema type is
`string` is recorded as an **error** by the blueprint-schema validator
(`validate_object_against_blueprint`), not as a warning — while the
`PortObjectValidator` records the very same object with zero errors and one
null-property warning.  The claim's "warning, not error" does not hold for
the validator that performs the type checks. -/
theorem c7_counterexample_null_property_is_type_error :
    validateObjectAgainstBlueprint
        [("identifier", jstr "101"), ("title", jstr "Svc"),
          ("blueprint", jstr "cargService"), ("properties", jobj [("status", jnull)])]
        ⟨"cargService", some [("status", some "string")], some []⟩
        "carg-service[0]" =
      .ok ["carg-service[0]: Property 'status' should be string, got NoneType"] ∧
    validateSingleObject ["cargService"]
        [("identifier", jstr "101"), ("title", jstr "Svc"),
          ("blueprint", jstr "cargService"), ("properties", jobj [("status", jnull)])]
        "carg-service[0]" =
      ([], ["carg-service[0]: Property 'status' is null"]) :=
  ⟨rfl, rfl⟩

/-- C7 (amended): in `_validate_single_object` a non-dict `properties` value
is an error, a null-valued property is a warning, and property values never
contribute errors; in `validate_object_against_blueprint` each property
declared in the blueprint schema is type-checked (`string` / `number` /
`boolean` / `array` only; undeclared names and unrecognized or absent
declared types are unchecked) with mismatches recorded as errors — and a
null value of a property declared with one of the four checked types is
recorded as a type error there, not a warning. -/
theorem c7_amended_property_checks (blueprints : List String)
    (obj : List (String × JVal)) (objId : String) :
    (∀ p, dictGet obj "properties" = some p → isDictPy p = false →
      msgPropertiesDict objId ∈ (validateSingleObject blueprints obj objId).1) ∧
    (∀ props, dictGet obj "properties" = some (jobj props) →
      (∀ kv ∈ props, kv.2 = jnull →
        msgNullProperty objId kv.1 ∈ (validateSingleObject blueprints obj objId).2) ∧
      (validateSingleObject blueprints obj objId).1 =
        requiredFieldErrors obj objId ++ blueprintErrors blueprints obj objId ++
          identifierErrors obj objId ++ relationsErrors obj objId) ∧
    (∀ (sp : List (String × Option String)) (path k : String) (v : JVal),
      (assocGet sp k = some (some "string") → isStr v = false →
        propTypeError sp path (k, v) =
          some (msgPropertyType path k "string" (pyTypeName v))) ∧
      (assocGet sp k = some (some "number") → isNumberPy v = false →
        propTypeError sp path (k, v) =
          some (msgPropertyType path k "number" (pyTypeName v))) ∧
      (assocGet sp k = some (some "boolean") → isBoolPy v = false →
        propTypeError sp path (k, v) =
          some (msgPropertyType path k "boolean" (pyTypeName v))) ∧
      (assocGet sp k = some (some "array") → isListPy v = false →
        propTypeError sp path (k, v) =
          some (msgPropertyType path k "array" (pyTypeName v))) ∧
      (assocGet sp k = none → propTypeError sp path (k, v) = none) ∧
      (assocGet sp k = some none → propTypeError sp path (k, v) = none) ∧
      (∀ s, assocGet sp k = some (some s) → s ≠ "string" → s ≠ "number" →
        s ≠ "boolean" → s ≠ "array" → propTypeError sp path (k, v) = none)) ∧
    (∀ (sp : List (String × Option String)) (path k : String),
      assocGet sp k = some (some "string") →
      propTypeError sp path (k, jnull) =
        some (msgPropertyType path k "string" "NoneType")) := by
  refine ⟨?_, ?_, ?_, ?_⟩
  · intro p hget hnotdict
    have hprops : propertiesCheck obj objId = ([msgPropertiesDict objId], []) := by
      unfold propertiesCheck
      rw [hget]
      cases p <;> first | rfl | (exfalso; simp [isDictPy] at hnotdict)
    unfold validateSingleObject
    dsimp only
    rw [hprops]
    exact List.mem_append_left _ (List.mem_append_right _ (List.mem_singleton.mpr rfl))
  · intro props hget
    have hprops : propertiesCheck obj objId =
        ([], props.filterMap fun kv =>
          match kv.2 with
          | jnull => some (msgNullProperty objId kv.1)
          | _ => none) := by
      unfold propertiesCheck
      rw [hget]
    constructor
    · intro kv hkv hnull
      unfold validateSingleObject
      dsimp only
      rw [hprops]
      dsimp only
      refine List.mem_filterMap.mpr ⟨kv, hkv, ?_⟩
      rw [hnull]
    · unfold validateSingleObject
      dsimp only
      rw [hprops]
      simp
  · intro sp path k v
    refine ⟨?_, ?_, ?_, ?_, ?_, ?_, ?_⟩
    · intro ha hv
      unfold propTypeError
      rw [ha]
      simp [hv]
    · intro ha hv
      unfold propTypeError
      rw [ha]
      simp [hv]
    · intro ha hv
      unfold propTypeError
      rw [ha]
      simp [hv]
    · intro ha hv
      unfold propTypeError
      rw [ha]
      simp [hv]
    · intro ha
      unfold propTypeError
      rw [ha]
    · intro ha
      unfold propTypeError
      rw [ha]
    · intro s ha h1 h2 h3 h4
      unfold propTypeError
      rw [ha]
      dsimp only
      split
      · exfalso; exact h1 (by injection (by assumption))
      · exfalso; exact h2 (by injection (by assumption))
      · exfalso; exact h3 (by injection (by assumption))
      · exfalso; exact h4 (by injection (by assumption))
      · rfl
  · intro sp path k ha
    unfold propTypeError
    rw [ha]
    rfl

/-- Witness for C7 (amended): a null-valued property produces a warning in
`_validate_single_object`. -/
theorem c7_amended_property_checks_witness :
    dictGet [("identifier", jstr "1"), ("title", jstr "T"),
        ("blueprint", jstr "cargService"), ("properties", jobj [("x", jnull)])]
      "properties" = some (jobj [("x", jnull)]) ∧
    msgNullProperty "carg-service[1]" "x" ∈
      (validateSingleObject ["cargService"]
        [("identifier", jstr "1"), ("title", jstr "T"),
          ("blueprint", jstr "cargService"), ("properties", jobj [("x", jnull)])]
        "carg-service[1]").2 := by
  refine ⟨rfl, ?_⟩
  exact ((c7_amended_property_checks ["cargService"]
    [("identifier", jstr "1"), ("title", jstr "T"),
      ("blueprint", jstr "cargService"), ("properties", jobj [("x", jnull)])]
    "carg-service[1]").2.1 [("x", jnull)] rfl).1 ("x", jnull)
    (List.mem_singleton.mpr rfl) rfl

/-- C8: a `relations` value that is not a mapping is an error, every
non-string relation value is an error (both in `_validate_single_object`),
and every relation name not declared in the blueprint's relation set is an
error (in `validate_object_against_blueprint`, whose relation check runs
when the blueprint carries its relation set and the properties check did
not raise). -/
theorem c8_relations_mapping_of_declared_strings (blueprints : List String)
    (obj : List (String × JVal)) (objId : String) :
    (∀ r, dictGet obj "relations" = some r → isDictPy r = false →
      msgRelationsDict objId ∈ (validateSingleObject blueprints obj objId).1) ∧
    (∀ rels kv, dictGet obj "relations" = some (jobj rels) → kv ∈ rels →
      isStr kv.2 = false →
      msgRelationType objId kv.1 ∈ (validateSingleObject blueprints obj objId).1) ∧
    (∀ (bp : Blueprint) (path : String) (bpRels : List String) rels kv,
      bp.relations = some bpRels →
      dictGet obj "relations" = some (jobj rels) → kv ∈ rels →
      bpRels.contains kv.1 = false →
      (bp.schemaProperties = none ∨ dictGet obj "properties" = none ∨
        ∃ props, dictGet obj "properties" = some (jobj props)) →
      ∃ es, validateObjectAgainstBlueprint obj bp path = .ok es ∧
        msgUnknownRelation path kv.1 ∈ es) := by
  refine ⟨?_, ?_, ?_⟩
  · intro r hget hnotdict
    have hrel : relationsErrors obj objId = [msgRelationsDict objId] := by
      unfold relationsErrors
      rw [hget]
      cases r <;> first | rfl | (exfalso; simp [isDictPy] at hnotdict)
    unfold validateSingleObject
    dsimp only
    rw [hrel]
    exact List.mem_append_right _ (List.mem_singleton.mpr rfl)
  · intro rels kv hget hkv hnstr
    have hmem : msgRelationType objId kv.1 ∈ relationsErrors obj objId := by
      unfold relationsErrors
      rw [hget]
      exact List.mem_filterMap.mpr ⟨kv, hkv, by simp [hnstr]⟩
    unfold validateSingleObject
    dsimp only
    exact List.mem_append_right _ hmem
  · intro bp path bpRels rels kv hbrels hgetrel hkv hcontains hsafe
    have hrelmsg : msgUnknownRelation path kv.1 ∈
        rels.filterMap fun kv =>
          if bpRels.contains kv.1 then none else some (msgUnknownRelation path kv.1) :=
      List.mem_filterMap.mpr ⟨kv, hkv, by rw [hcontains]; rfl⟩
    rcases hsp : bp.schemaProperties with _ | sp
    · refine ⟨requiredFieldMissingErrors obj path ++ [] ++
        rels.filterMap (fun kv =>
          if bpRels.contains kv.1 then none else some (msgUnknownRelation path kv.1)),
        ?_, List.mem_append_right _ hrelmsg⟩
      unfold validateObjectAgainstBlueprint
      rw [hsp, hbrels, hgetrel]
      rfl
    · rcases hsafe with h | h | ⟨props, h⟩
      · rw [hsp] at h; cases h
      · refine ⟨requiredFieldMissingErrors obj path ++ [] ++
          rels.filterMap (fun kv =>
            if bpRels.contains kv.1 then none else some (msgUnknownRelation path kv.1)),
          ?_, List.mem_append_right _ hrelmsg⟩
        unfold validateObjectAgainstBlueprint
        rw [hsp, h, hbrels, hgetrel]
        rfl
      · refine ⟨requiredFieldMissingErrors obj path ++
          props.filterMap (propTypeError sp path) ++
          rels.filterMap (fun kv =>
            if bpRels.contains kv.1 then none else some (msgUnknownRelation path kv.1)),
          ?_, List.mem_append_right _ hrelmsg⟩
        unfold validateObjectAgainstBlueprint
        rw [hsp, h, hbrels, hgetrel]
        rfl

/-- Witness for C8: a non-dict `relations` value and a non-string relation
value are both flagged by `_validate_single_object`. -/
theorem c8_relations_mapping_of_declared_strings_witness :
    (dictGet [("identifier", jstr "1"), ("relations", jint 3)] "relations" =
        some (jint 3) ∧
      msgRelationsDict "carg-component[0]" ∈
        (validateSingleObject [] [("identifier", jstr "1"), ("relations", jint 3)]
          "carg-component[0]").1) ∧
    (dictGet [("identifier", jstr "1"), ("relations", jobj [("bogus", jint 5)])]
        "relations" = some (jobj [("bogus", jint 5)]) ∧
      msgRelationType "carg-component[0]" "bogus" ∈
        (validateSingleObject []
          [("identifier", jstr "1"), ("relations", jobj [("bogus", jint 5)])]
          "carg-component[0]").1) := by
  constructor
  · refine ⟨rfl, ?_⟩
    exact (c8_relations_mapping_of_declared_strings []
      [("identifier", jstr "1"), ("relations", jint 3)] "carg-component[0]").1
      (jint 3) rfl rfl
  · refine ⟨rfl, ?_⟩
    exact (c8_relations_mapping_of_declared_strings []
      [("identifier", jstr "1"), ("relations", jobj [("bogus", jint 5)])]
      "carg-component[0]").2.1 [("bogus", jint 5)] ("bogus", jint 5) rfl
      (List.mem_singleton.mpr rfl) rfl

theorem validateObjectsLoop_spec (bl : List String) (kind : String) :
    ∀ (objs : List (List (String × JVal))) (i : Nat) (kr : KindResults)
      (res : ValidationResults),
    (validateObjectsLoop bl kind i objs kr res).2.validationErrors =
        res.validationErrors ++ gatherKindErrors bl kind i objs ∧
    (validateObjectsLoop bl kind i objs kr res).2.validationWarnings =
        res.validationWarnings ++ gatherKindWarnings bl kind i objs ∧
    (validateObjectsLoop bl kind i objs kr res).2.valid =
        (res.valid && decide (gatherKindErrors bl kind i objs = [])) ∧
    (validateObjectsLoop bl kind i objs kr res).2.totalObjects =
        res.totalObjects ∧
    (validateObjectsLoop bl kind i objs kr res).2.summary = res.summary := by
  intro objs
  induction objs with
  | nil =>
    intro i kr res
    simp [validateObjectsLoop, gatherKindErrors, gatherKindWarnings]
  | cons obj rest ih =>
    intro i kr res
    unfold validateObjectsLoop gatherKindErrors gatherKindWarnings
    dsimp only
    by_cases he : (validateSingleObject bl obj (objIdOf kind i)).1.isEmpty
    · have hel : (validateSingleObject bl obj (objIdOf kind i)).1 = [] :=
        List.isEmpty_iff.mp he
      by_cases hw : (validateSingleObject bl obj (objIdOf kind i)).2.isEmpty
      · have hwl : (validateSingleObject bl obj (objIdOf kind i)).2 = [] :=
          List.isEmpty_iff.mp hw
        simp only [he, hw, Bool.not_true, Bool.false_eq_true, if_false]
        rcases ih (i + 1) _ res with ⟨h1, h2, h3, h4, h5⟩
        rw [h1, h2, h3, h4, h5, hel, hwl]
        simp
      · have hwl : (validateSingleObject bl obj (objIdOf kind i)).2 ≠ [] := by
          intro hc; exact hw (List.isEmpty_iff.mpr hc)
        simp only [he, hw, Bool.not_true, Bool.not_false, Bool.false_eq_true, if_false,
          if_true]
        rcases ih (i + 1) _
          { res with validationWarnings :=
              res.validationWarnings ++ (validateSingleObject bl obj (objIdOf kind i)).2 }
          with ⟨h1, h2, h3, h4, h5⟩
        rw [h1, h2, h3, h4, h5, hel]
        simp
    · have hel : (validateSingleObject bl obj (objIdOf kind i)).1 ≠ [] := by
        intro hc; exact he (List.isEmpty_iff.mpr hc)
      by_cases hw : (validateSingleObject bl obj (objIdOf kind i)).2.isEmpty
      · have hwl : (validateSingleObject bl obj (objIdOf kind i)).2 = [] :=
          List.isEmpty_iff.mp hw
        simp only [he, hw, Bool.not_false, Bool.not_true, Bool.false_eq_true, if_true,
          if_false]
        rcases ih (i + 1) _
          { res with
              validationErrors :=
                res.validationErrors ++ (validateSingleObject bl obj (objIdOf kind i)).1,
              valid := false }
          with ⟨h1, h2, h3, h4, h5⟩
        rw [h1, h2, h3, h4, h5, hwl]
        simp [hel]
      · simp only [he, hw, Bool.not_false, if_true]
        rcases ih (i + 1) _
          { { res with
                validationErrors :=
                  res.validationErrors ++ (validateSingleObject bl obj (objIdOf kind i)).1,
                valid := false } with
              validationWarnings :=
                res.validationWarnings ++ (validateSingleObject bl obj (objIdOf kind i)).2 }
          with ⟨h1, h2, h3, h4, h5⟩
        rw [h1, h2, h3, h4, h5]
        simp [hel]

theorem validateKindsLoop_spec (bl : List String) :
    ∀ (kinds : List (String × List (List (String × JVal))))
      (res : ValidationResults),
    (validateKindsLoop bl kinds res).validationErrors =
        res.validationErrors ++ gatherErrors bl kinds ∧
    (validateKindsLoop bl kinds res).validationWarnings =
        res.validationWarnings ++ gatherWarnings bl kinds ∧
    (validateKindsLoop bl kinds res).valid =
        (res.valid && decide (gatherErrors bl kinds = [])) := by
  intro kinds
  induction kinds with
  | nil =>
    intro res
    simp [validateKindsLoop, gatherErrors, gatherWarnings]
  | cons p rest ih =>
    obtain ⟨kind, objs⟩ := p
    intro res
    unfold validateKindsLoop gatherErrors gatherWarnings
    dsimp only
    rcases validateObjectsLoop_spec bl kind objs 0 ⟨objs.length, 0, [], []⟩ res
      with ⟨h1, h2, h3, _, _⟩
    refine ⟨?_, ?_, ?_⟩
    · rw [(ih _).1]
      dsimp only
      rw [h1]
      simp [List.append_assoc]
    · rw [(ih _).2.1]
      dsimp only
      rw [h2]
      simp [List.append_assoc]
    · rw [(ih _).2.2]
      dsimp only
      rw [h3]
      by_cases hg : gatherKindErrors bl kind 0 objs = []
      · simp [hg]
      · simp [hg]

theorem gatherKindErrors_eq_nil_iff (bl : List String) (kind : String) :
    ∀ (objs : List (List (String × JVal))) (i : Nat),
    gatherKindErrors bl kind i objs = [] ↔
      ∀ (j : Nat) (h : j < objs.length),
        (validateSingleObject bl (objs.get ⟨j, h⟩) (objIdOf kind (i + j))).1 = [] := by
  intro objs
  induction objs with
  | nil =>
    intro i
    simp [gatherKindErrors]
  | cons obj rest ih =>
    intro i
    unfold gatherKindErrors
    rw [List.append_eq_nil, ih (i + 1)]
    constructor
    · rintro ⟨h0, hrest⟩ j hj
      cases j with
      | zero => simpa using h0
      | succ j' =>
        have hj' : j' < rest.length := by simpa using hj
        have := hrest j' hj'
        have harith : i + 1 + j' = i + (j' + 1) := by omega
        rw [harith] at this
        simpa using this
    · intro hall
      refine ⟨?_, ?_⟩
      · have := hall 0 (by simp)
        simpa using this
      · intro j hj
        have hj' : j + 1 < (obj :: rest).length := by simpa using Nat.succ_lt_succ hj
        have := hall (j + 1) hj'
        have harith : i + (j + 1) = i + 1 + j := by omega
        rw [harith] at this
        simpa using this

theorem gatherErrors_eq_nil_iff (bl : List String) :
    ∀ (input : List (String × List (List (String × JVal)))),
    gatherErrors bl input = [] ↔
      ∀ p ∈ input, gatherKindErrors bl p.1 0 p.2 = [] := by
  intro input
  induction input with
  | nil => simp [gatherErrors]
  | cons p rest ih =>
    obtain ⟨kind, objs⟩ := p
    unfold gatherErrors
    rw [List.append_eq_nil, ih]
    constructor
    · rintro ⟨h0, hrest⟩ q hq
      rcases List.mem_cons.mp hq with rfl | hq
      · exact h0
      · exact hrest q hq
    · intro hall
      exact ⟨hall (kind, objs) (List.mem_cons_self _ _),
        fun q hq => hall q (List.mem_cons_of_mem _ hq)⟩

/-- C6: the result's validity flag is true iff no object of any kind
produced an error (warnings never affect it), and validation is exhaustive:
the aggregate error and warning lists are exactly the concatenation of every
object's errors and warnings over every kind, in visit order. -/
theorem c6_validity_is_conjunction_and_validation_exhaustive (bl : List String)
    (input : List (String × List (List (String × JVal)))) :
    (validatePortObjects bl input).validationErrors = gatherErrors bl input ∧
    (validatePortObjects bl input).validationWarnings = gatherWarnings bl input ∧
    ((validatePortObjects bl input).valid = true ↔
      ∀ p ∈ input, ∀ (j : Nat) (h : j < p.2.length),
        (validateSingleObject bl (p.2.get ⟨j, h⟩) (objIdOf p.1 j)).1 = []) := by
  rcases validateKindsLoop_spec bl input ⟨true, 0, [], [], []⟩ with ⟨h1, h2, h3⟩
  unfold validatePortObjects
  refine ⟨by simpa using h1, by simpa using h2, ?_⟩
  rw [h3]
  simp only [Bool.true_and, decide_eq_true_eq]
  rw [gatherErrors_eq_nil_iff]
  constructor
  · intro hall p hp j hj
    have := (gatherKindErrors_eq_nil_iff bl p.1 p.2 0).mp (hall p hp) j hj
    simpa using this
  · intro hall p hp
    rw [gatherKindErrors_eq_nil_iff]
    intro j hj
    have := hall p hp j hj
    simpa using this

/-! ## Populated raw items (claim C9) -/

/-- The field `k` holds an integer. -/
def hasIntField (d : List (String × JVal)) (k : String) : Bool :=
  match dictGet d k with
  | some (jint _) => true
  | _ => false

/-- The field `k` holds a non-empty string. -/
def hasNonemptyStrField (d : List (String × JVal)) (k : String) : Bool :=
  match dictGet d k with
  | some (jstr s) => decide (s ≠ "")
  | _ => false

/-- The field `k` holds a string. -/
def hasStrField (d : List (String × JVal)) (k : String) : Bool :=
  match dictGet d k with
  | some (jstr _) => true
  | _ => false

/-- The field `k` holds a number. -/
def hasNumField (d : List (String × JVal)) (k : String) : Bool :=
  match dictGet d k with
  | some (jint _) => true
  | some (jfloat _) => true
  | _ => false

/-- The field `k` holds a list. -/
def hasListField (d : List (String × JVal)) (k : String) : Bool :=
  match dictGet d k with
  | some (jarr _) => true
  | _ => false

/-- The field `k` holds a mapping whose sub-field `sub` is a non-empty
string. -/
def hasSubStrField (d : List (String × JVal)) (k sub : String) : Bool :=
  match dictGet d k with
  | some (jobj l) =>
    match dictGet l sub with
    | some (jstr s) => decide (s ≠ "")
    | _ => false
  | _ => false

/-- The field `k` holds a mapping whose sub-field `sub` is a number. -/
def hasSubNumField (d : List (String × JVal)) (k sub : String) : Bool :=
  match dictGet d k with
  | some (jobj l) =>
    match dictGet l sub with
    | some (jint _) => true
    | some (jfloat _) => true
    | _ => false
  | _ => false

/-- All source fields `_transform_project` recognizes are populated with
their natural types. -/
def populatedProject (p : List (String × JVal)) : Bool :=
  hasIntField p "id" && hasNonemptyStrField p "name" && hasStrField p "status" &&
    hasStrField p "description" && hasSubStrField p "owner" "email" &&
    hasNumField p "budget" && hasStrField p "start_date" &&
    hasStrField p "end_date" && hasListField p "tags" &&
    hasSubStrField p "azure_devops" "project_name"

/-- All source fields `_transform_service` recognizes are populated. -/
def populatedService (s : List (String × JVal)) : Bool :=
  hasIntField s "id" && hasNonemptyStrField s "name" && hasStrField s "status" &&
    hasStrField s "health_status" && hasStrField s "version" &&
    hasSubStrField s "repository" "url" && hasStrField s "language" &&
    hasSubNumField s "metrics" "cpu_usage" &&
    hasSubNumField s "metrics" "memory_usage_mb" &&
    hasSubStrField s "last_deployment" "timestamp" &&
    hasSubStrField s "azure_devops" "pipeline_name" && hasIntField s "project_id"

/-- All source fields `_transform_component` recognizes are populated. -/
def populatedComponent (c : List (String × JVal)) : Bool :=
  hasIntField c "id" && hasNonemptyStrField c "name" && hasStrField c "type" &&
    hasStrField c "status" && hasStrField c "description" &&
    hasSubStrField c "maintainer" "email" && hasStrField c "complexity" &&
    hasNumField c "test_coverage" && hasIntField c "service_id"

/-- All source fields `_transform_deployment` recognizes are populated. -/
def populatedDeployment (d : List (String × JVal)) : Bool :=
  hasIntField d "id" && hasNonemptyStrField d "service_name" &&
    hasStrField d "status" && hasStrField d "environment" &&
    hasStrField d "version" && hasSubStrField d "deployed_by" "email" &&
    hasStrField d "deployment_time" && hasNumField d "duration_seconds" &&
    hasSubStrField d "azure_devops" "run_id" && hasStrField d "logs" &&
    hasIntField d "service_id"

/-- Dispatch the populated predicate by kind. -/
def populatedFor : Kind → List (String × JVal) → Bool
  | .project => populatedProject
  | .service => populatedService
  | .component => populatedComponent
  | .deployment => populatedDeployment

theorem hasIntField_spec {d : List (String × JVal)} {k : String}
    (h : hasIntField d k = true) : ∃ n, dictGet d k = some (jint n) := by
  unfold hasIntField at h
  split at h
  · exact ⟨_, by assumption⟩
  · cases h

theorem hasNonemptyStrField_spec {d : List (String × JVal)} {k : String}
    (h : hasNonemptyStrField d k = true) :
    ∃ s, dictGet d k = some (jstr s) ∧ s ≠ "" := by
  unfold hasNonemptyStrField at h
  split at h
  · exact ⟨_, by assumption, by simpa using h⟩
  · cases h

theorem hasSubStrField_spec {d : List (String × JVal)} {k sub : String}
    (h : hasSubStrField d k sub = true) :
    ∃ l, dictGet d k = some (jobj l) ∧ ∃ s, dictGet l sub = some (jstr s) ∧ s ≠ "" := by
  unfold hasSubStrField at h
  split at h
  · next l heq =>
    refine ⟨l, heq, ?_⟩
    split at h
    · exact ⟨_, by assumption, by simpa using h⟩
    · cases h
  · cases h

theorem hasSubNumField_spec {d : List (String × JVal)} {k sub : String}
    (h : hasSubNumField d k sub = true) :
    ∃ l, dictGet d k = some (jobj l) := by
  unfold hasSubNumField at h
  split at h
  · exact ⟨_, by assumption⟩
  · cases h

/-- C9: round-trip — transforming a raw item whose recognized source fields
are all populated with the kind's hardcoded mapping succeeds, and validating
the resulting object with `_validate_single_object` against a registry
containing its blueprint produces zero errors. -/
theorem c9_roundtrip_populated_item_validates_clean (bl : List String) (k : Kind)
    (item : List (String × JVal)) (hpop : populatedFor k item = true)
    (hbp : bl.contains (blueprintIdOf k) = true) :
    ∃ obj, transformFor k item = .ok obj ∧
      ∀ objId, (validateSingleObject bl obj objId).1 = [] := by
  cases k with
  | project =>
    simp only [populatedFor, populatedProject, Bool.and_eq_true] at hpop
    obtain ⟨⟨⟨⟨⟨⟨⟨⟨⟨hid, hname⟩, _⟩, _⟩, hown⟩, _⟩, _⟩, _⟩, _⟩, hazdo⟩ := hpop
    obtain ⟨n, hidv⟩ := hasIntField_spec hid
    obtain ⟨nm, hnm, hnmne⟩ := hasNonemptyStrField_spec hname
    obtain ⟨lo, hlo, _⟩ := hasSubStrField_spec hown
    obtain ⟨la, hla, _⟩ := hasSubStrField_spec hazdo
    have e1 : dictGetD item "owner" (jobj []) = jobj lo := by simp [dictGetD, hlo]
    have e2 : dictGetD item "azure_devops" (jobj []) = jobj la := by
      simp [dictGetD, hla]
    have e3 : dictGetD item "id" (jstr "") = jint n := by simp [dictGetD, hidv]
    have e4 : dictGetD item "name" (jstr "") = jstr nm := by simp [dictGetD, hnm]
    have htr : transformFor Kind.project item = Except.ok
        [("identifier", jstr (pyStr (jint n))),
          ("title", jstr nm),
          ("blueprint", jstr "cargProject"),
          ("properties", jobj [
            ("status", dictGetD item "status" jnull),
            ("description", dictGetD item "description" jnull),
            ("owner", pyOr (dictGetD lo "email" jnull) (dictGetD lo "username" jnull)),
            ("budget", dictGetD item "budget" jnull),
            ("startDate", dictGetD item "start_date" jnull),
            ("endDate", dictGetD item "end_date" jnull),
            ("tags", dictGetD item "tags" (jarr [])),
            ("azureDevOpsProject", dictGetD la "project_name" jnull)])] := by
      simp only [transformFor]
      unfold transformProject
      dsimp only
      rw [e1, e2, e3, e4]
      rfl
    refine ⟨_, htr, ?_⟩
    intro objId
    have hbp2 := by simpa [blueprintIdOf] using hbp
    simp [validateSingleObject, requiredFieldErrors, blueprintErrors,
      identifierErrors, propertiesCheck, relationsErrors, dictGet,
      pyStr, pyTruthy, isStr, intRepr_ne_empty, hnmne, hbp2, dictGetD]
  | service =>
    simp only [populatedFor, populatedService, Bool.and_eq_true] at hpop
    obtain ⟨⟨⟨⟨⟨⟨⟨⟨⟨⟨⟨hid, hname⟩, _⟩, _⟩, _⟩, hrep⟩, _⟩, hcpu⟩, _⟩, hlast⟩,
      hazdo⟩, _⟩ := hpop
    obtain ⟨n, hidv⟩ := hasIntField_spec hid
    obtain ⟨nm, hnm, hnmne⟩ := hasNonemptyStrField_spec hname
    obtain ⟨lr, hlr, _⟩ := hasSubStrField_spec hrep
    obtain ⟨lm, hlm⟩ := hasSubNumField_spec hcpu
    obtain ⟨ld, hld, _⟩ := hasSubStrField_spec hlast
    obtain ⟨la, hla, _⟩ := hasSubStrField_spec hazdo
    have e1 : dictGetD item "repository" (jobj []) = jobj lr := by
      simp [dictGetD, hlr]
    have e2 : dictGetD item "metrics" (jobj []) = jobj lm := by
      simp [dictGetD, hlm]
    have e3 : dictGetD item "last_deployment" (jobj []) = jobj ld := by
      simp [dictGetD, hld]
    have e4 : dictGetD item "azure_devops" (jobj []) = jobj la := by
      simp [dictGetD, hla]
    have e5 : dictGetD item "id" (jstr "") = jint n := by simp [dictGetD, hidv]
    have e6 : dictGetD item "name" (jstr "") = jstr nm := by simp [dictGetD, hnm]
    have htr : transformFor Kind.service item = Except.ok
        [("identifier", jstr (pyStr (jint n))),
          ("title", jstr nm),
          ("blueprint", jstr "cargService"),
          ("properties", jobj [
            ("status", dictGetD item "status" jnull),
            ("healthStatus", dictGetD item "health_status" (jstr "Unknown")),
            ("version", dictGetD item "version" jnull),
            ("repository", dictGetD lr "url" jnull),
            ("language", dictGetD item "language" jnull),
            ("cpu", dictGetD lm "cpu_usage" jnull),
            ("memory", dictGetD lm "memory_usage_mb" jnull),
            ("lastDeployment", dictGetD ld "timestamp" jnull),
            ("azurePipeline", dictGetD la "pipeline_name" jnull)]),
          ("relations", jobj [
            ("project", jstr (pyStr (dictGetD item "project_id" (jstr ""))))])] := by
      simp only [transformFor]
      unfold transformService
      dsimp only
      rw [e1, e2, e3, e4, e5, e6]
      rfl
    refine ⟨_, htr, ?_⟩
    intro objId
    have hbp2 := by simpa [blueprintIdOf] using hbp
    simp [validateSingleObject, requiredFieldErrors, blueprintErrors,
      identifierErrors, propertiesCheck, relationsErrors, dictGet,
      pyStr, pyTruthy, isStr, intRepr_ne_empty, hnmne, hbp2, dictGetD]
  | component =>
    simp only [populatedFor, populatedComponent, Bool.and_eq_true] at hpop
    obtain ⟨⟨⟨⟨⟨⟨⟨⟨hid, hname⟩, _⟩, _⟩, _⟩, hmnt⟩, _⟩, _⟩, _⟩ := hpop
    obtain ⟨n, hidv⟩ := hasIntField_spec hid
    obtain ⟨nm, hnm, hnmne⟩ := hasNonemptyStrField_spec hname
    obtain ⟨lo, hlo, _⟩ := hasSubStrField_spec hmnt
    have e1 : dictGetD item "maintainer" (jobj []) = jobj lo := by
      simp [dictGetD, hlo]
    have e2 : dictGetD item "id" (jstr "") = jint n := by simp [dictGetD, hidv]
    have e3 : dictGetD item "name" (jstr "") = jstr nm := by simp [dictGetD, hnm]
    have htr : transformFor Kind.component item = Except.ok
        [("identifier", jstr (pyStr (jint n))),
          ("title", jstr nm),
          ("blueprint", jstr "cargComponent"),
          ("properties", jobj [
            ("type", dictGetD item "type" jnull),
            ("status", dictGetD item "status" jnull),
            ("description", dictGetD item "description" jnull),
            ("maintainer", pyOr (dictGetD lo "email" jnull) (dictGetD lo "username" jnull)),
            ("complexity", dictGetD item "complexity" jnull),
            ("testCoverage", dictGetD item "test_coverage" jnull)]),
          ("relations", jobj [
            ("service", jstr (pyStr (dictGetD item "service_id" (jstr ""))))])] := by
      simp only [transformFor]
      unfold transformComponent
      dsimp only
      rw [e1, e2, e3]
      rfl
    refine ⟨_, htr, ?_⟩
    intro objId
    have hbp2 := by simpa [blueprintIdOf] using hbp
    simp [validateSingleObject, requiredFieldErrors, blueprintErrors,
      identifierErrors, propertiesCheck, relationsErrors, dictGet,
      pyStr, pyTruthy, isStr, intRepr_ne_empty, hnmne, hbp2, dictGetD]
  | deployment =>
    simp only [populatedFor, populatedDeployment, Bool.and_eq_true] at hpop
    obtain ⟨⟨⟨⟨⟨⟨⟨⟨⟨⟨hid, hsn⟩, _⟩, henv⟩, hver⟩, hdep⟩, _⟩, _⟩, hrun⟩, _⟩, _⟩ :=
      hpop
    obtain ⟨n, hidv⟩ := hasIntField_spec hid
    obtain ⟨sn, hsnv, hsnne⟩ := hasNonemptyStrField_spec hsn
    obtain ⟨lo, hlo, _⟩ := hasSubStrField_spec hdep
    obtain ⟨la, hla, _⟩ := hasSubStrField_spec hrun
    have e1 : dictGetD item "deployed_by" (jobj []) = jobj lo := by
      simp [dictGetD, hlo]
    have e2 : dictGetD item "azure_devops" (jobj []) = jobj la := by
      simp [dictGetD, hla]
    have e3 : dictGetD item "id" (jstr "") = jint n := by simp [dictGetD, hidv]
    have e4 : dictGetD item "service_name" (jstr "") = jstr sn := by
      simp [dictGetD, hsnv]
    have htitle : ∀ a b : String, sn ++ " - " ++ a ++ " - " ++ b ≠ "" := by
      intro a b hcon
      have : (sn ++ " - " ++ a ++ " - " ++ b).length = 0 := by rw [hcon]; rfl
      simp only [String.length_append] at this
      rw [show (" - " : String).length = 3 from rfl] at this
      omega
    have htr : transformFor Kind.deployment item = Except.ok
        [("identifier", jstr (pyStr (jint n))),
          ("title", jstr (pyStr (jstr sn) ++ " - " ++
            pyStr (dictGetD item "environment" (jstr "")) ++ " - " ++
            pyStr (dictGetD item "version" (jstr "")))),
          ("blueprint", jstr "cargDeployment"),
          ("properties", jobj [
            ("status", dictGetD item "status" jnull),
            ("environment", dictGetD item "environment" jnull),
            ("version", dictGetD item "version" jnull),
            ("deployedBy", pyOr (dictGetD lo "email" jnull) (dictGetD lo "username" jnull)),
            ("deploymentTime", dictGetD item "deployment_time" jnull),
            ("duration", dictGetD item "duration_seconds" jnull),
            ("azurePipelineRun", dictGetD la "run_id" jnull),
            ("logs", dictGetD item "logs" jnull)]),
          ("relations", jobj [
            ("service", jstr (pyStr (dictGetD item "service_id" (jstr ""))))])] := by
      simp only [transformFor]
      unfold transformDeployment
      dsimp only
      rw [e1, e2, e3, e4]
      rfl
    refine ⟨_, htr, ?_⟩
    intro objId
    have hbp2 := by simpa [blueprintIdOf] using hbp
    simp [validateSingleObject, requiredFieldErrors, blueprintErrors,
      identifierErrors, propertiesCheck, relationsErrors, dictGet,
      pyStr, pyTruthy, isStr, intRepr_ne_empty, hbp2, dictGetD, htitle]

/-- Witness for C9: a fully populated project raw item round-trips with
zero validation errors. -/
theorem c9_roundtrip_populated_item_validates_clean_witness :
    populatedFor Kind.project
        [("id", jint 1), ("name", jstr "P"), ("status", jstr "Active"),
          ("description", jstr "D"), ("owner", jobj [("email", jstr "a@b.c")]),
          ("budget", jint 5), ("start_date", jstr "2024-01-01"),
          ("end_date", jstr "2024-12-31"), ("tags", jarr []),
          ("azure_devops", jobj [("project_name", jstr "AZ")])] = true ∧
    (["cargProject"].contains (blueprintIdOf Kind.project)) = true ∧
    (validateSingleObject ["cargProject"]
        [("identifier", jstr "1"), ("title", jstr "P"),
          ("blueprint", jstr "cargProject"),
          ("properties", jobj [
            ("status", jstr "Active"), ("description", jstr "D"),
            ("owner", jstr "a@b.c"), ("budget", jint 5),
            ("startDate", jstr "2024-01-01"), ("endDate", jstr "2024-12-31"),
            ("tags", jarr []), ("azureDevOpsProject", jstr "AZ")])]
        "carg-project[0]").1 = [] := by
  refine ⟨rfl, rfl, ?_⟩
  obtain ⟨obj, htr, hval⟩ := c9_roundtrip_populated_item_validates_clean
    ["cargProject"] Kind.project
    [("id", jint 1), ("name", jstr "P"), ("status", jstr "Active"),
      ("description", jstr "D"), ("owner", jobj [("email", jstr "a@b.c")]),
      ("budget", jint 5), ("start_date", jstr "2024-01-01"),
      ("end_date", jstr "2024-12-31"), ("tags", jarr []),
      ("azure_devops", jobj [("project_name", jstr "AZ")])] rfl rfl
  have h2 : (Except.ok obj : Except String (List (String × JVal))) = Except.ok
      [("identifier", jstr "1"), ("title", jstr "P"),
        ("blueprint", jstr "cargProject"),
        ("properties", jobj [
          ("status", jstr "Active"), ("description", jstr "D"),
          ("owner", jstr "a@b.c"), ("budget", jint 5),
          ("startDate", jstr "2024-01-01"), ("endDate", jstr "2024-12-31"),
          ("tags", jarr []), ("azureDevOpsProject", jstr "AZ")])] := by
    rw [← htr]
    rfl
  injection h2 with h3
  rw [← h3]
  exact hval "carg-project[0]"

theorem validateObjectsLoopFr_spec (bl : List String) (kind : String) :
    ∀ (objs : List (List (String × JVal))) (i : Nat) (kr : KindResults)
      (res : ValidationResults),
    validateObjectsLoopFr bl kind i objs kr res =
      (objs, validateObjectsLoop bl kind i objs kr res) := by
  intro objs
  induction objs with
  | nil => intro i kr res; rfl
  | cons obj rest ih =>
    intro i kr res
    unfold validateObjectsLoopFr validateObjectsLoop
    dsimp only
    rw [ih]

theorem validateKindsLoopFr_spec (bl : List String) :
    ∀ (kinds : List (String × List (List (String × JVal))))
      (res : ValidationResults),
    validateKindsLoopFr bl kinds res = (kinds, validateKindsLoop bl kinds res) := by
  intro kinds
  induction kinds with
  | nil => intro res; rfl
  | cons p rest ih =>
    obtain ⟨kind, objs⟩ := p
    intro res
    unfold validateKindsLoopFr validateKindsLoop
    dsimp only
    rw [validateObjectsLoopFr_spec]
    dsimp only
    rw [ih]

/-- C10: validation is read-only with respect to its input — running the
validation pass with the traversed input threaded through explicitly returns
the input unchanged, alongside exactly the results `validate_port_objects`
computes.  (Each loop step only reads the current object; nothing is written
back into the input mapping or its lists.) -/
theorem c10_validation_leaves_input_unchanged (bl : List String)
    (input : List (String × List (List (String × JVal)))) :
    validatePortObjectsFr bl input = (input, validatePortObjects bl input) := by
  unfold validatePortObjectsFr validatePortObjects
  rw [validateKindsLoopFr_spec]

end Carg
